import Mathlib

/-
Shallow embedding of the ABCWatM soil module
(src/cwatm/hydrological_modules/soil.py).

The source is a numpy-vectorised per-cell computation: every operation of
the dynamic part is elementwise over the cell arrays, with masked
assignments selecting the cells of a given land-use class.  We therefore
embed a single cell.  A masked numpy assignment `x[mask] = e` becomes a
per-cell conditional `if mask then e else x`.

Machine floats are embedded as exact rationals.  The two transcendental
numpy primitives that the source applies elementwise, the float power
`a ** b` and `np.sqrt`, are passed as explicit function parameters
`pw : Q -> Q -> Q` and `sqt : Q -> Q`; theorems either hold for every
choice of these parameters or state the hypotheses they need, and the
concrete evaluations instantiate them with rational stand-ins that agree
with the real power and square root at every argument at which those
evaluations call them.

The assertions of the source abort the step when violated; the embedded
step returns an `Option`, with `none` meaning an assertion failure.
The `np.isnan` assertions of the source are vacuous in exact arithmetic
and are not embedded.  Rational division is total with `x / 0 = 0`.
-/

namespace ABCWatM

/-- One cell of the HRU data container `self.var`: the per-cell static soil
parameters, the persistent per-cell state, and the per-cell driving inputs
read from `self.var` by `soil.dynamic`. -/
structure Cell where
  land_use_type : ℕ
  natural_available_water_infiltration : ℚ
  actual_irrigation_consumption : ℚ
  cropKC : ℚ
  EWRef : ℚ
  FrostIndex : ℚ
  FrostIndexThreshold : ℚ
  topwater : ℚ
  w1 : ℚ
  w2 : ℚ
  w3 : ℚ
  ws1 : ℚ
  ws2 : ℚ
  ws3 : ℚ
  wres1 : ℚ
  wres2 : ℚ
  wres3 : ℚ
  wfc1 : ℚ
  wfc2 : ℚ
  wfc3 : ℚ
  wwp1 : ℚ
  wwp2 : ℚ
  wwp3 : ℚ
  KSat1 : ℚ
  KSat2 : ℚ
  KSat3 : ℚ
  lambda1 : ℚ
  lambda2 : ℚ
  lambda3 : ℚ
  kunSatFC12 : ℚ
  kunSatFC23 : ℚ
  arnoBeta : ℚ
  cPrefFlow : ℚ
  cropGroupNumber : ℚ
  capriseindex : ℚ
  percolationImp : ℚ
  maxtopwater : ℚ
  adjRoot0 : ℚ
  adjRoot1 : ℚ
  adjRoot2 : ℚ
  actTransTotal : ℚ
  actBareSoilEvap : ℚ
  actualET : ℚ

/-- Modelled from the spec: `divideValues` comes from
`cwatm.management_modules.data_handling`, which is not under src/.  The
spec (Phase 3) says the stress ratio defaults to 1 when the denominator is
degenerate, so the helper returns the default at a zero denominator and
the quotient otherwise. -/
def divideValues (a b default : ℚ) : ℚ :=
  if b = 0 then default else a / b

/-- Van Genuchten unsaturated conductivity, soil.py lines 407-408 and
458-460 and 496-498:
`KSat * sqrt(satTerm) * square(1 - (1 - satTerm ** (1/(lam/(lam+1)))) ** (lam/(lam+1)))`. -/
def kUnSatVG (pw : ℚ → ℚ → ℚ) (sqt : ℚ → ℚ) (KSat lam satTerm : ℚ) : ℚ :=
  KSat * sqt satTerm *
    (1 - pw (1 - pw satTerm (1 / (lam / (lam + 1)))) (lam / (lam + 1))) ^ 2

/-- Stage of soil.py lines 183-201: available water for infiltration with
its negative-noise correction, paddy ponding, open-water evaporation and
the bare-soil-evaporation reduction. -/
structure StageA where
  availWaterInfiltration1 : ℚ
  topwater1 : ℚ
  openWaterEvap : ℚ
  topwater2 : ℚ
  availWaterInfiltration : ℚ
  potBareSoilEvap : ℚ

def stageA (c : Cell) (openWaterEvapIn potBareSoilEvapIn : ℚ) : StageA :=
  -- line 183
  let a0 := c.natural_available_water_infiltration + c.actual_irrigation_consumption
  -- line 185 (line 184 is the assertion, checked in `dynamic` on the raw sum)
  let a1 := if a0 < 0 then 0 else a0
  -- line 189, paddy_irrigated_land is land_use_type == 2
  let tw1 := if c.land_use_type = 2 then
      (if 0.75 < c.cropKC then c.topwater + a1 else c.topwater) else c.topwater
  -- line 192
  let owe := if c.land_use_type = 2 then min (max 0 tw1) c.EWRef else openWaterEvapIn
  -- line 193
  let tw2 := if c.land_use_type = 2 then tw1 - owe else tw1
  -- line 198
  let a2 := if c.land_use_type = 2 then
      (if 0.75 < c.cropKC then tw2 else tw2 + a1) else a1
  -- line 201
  let pbse := if c.land_use_type = 2 then max 0 (potBareSoilEvapIn - owe)
      else potBareSoilEvapIn
  { availWaterInfiltration1 := a1, topwater1 := tw1,
    openWaterEvap := owe, topwater2 := tw2, availWaterInfiltration := a2,
    potBareSoilEvap := pbse }

/-- Stage of soil.py lines 204-214: capillary rise from groundwater enters
layer 3 and its excess cascades upward, the excess above layer 1 being
saved as a runoff contribution.  bioarea is land_use_type < 4. -/
structure StageB where
  w1b : ℚ
  w2b : ℚ
  w3b : ℚ
  saverunofffromGW : ℚ

def stageB (c : Cell) (capillar : ℚ) : StageB :=
  let bio := c.land_use_type < 4
  -- line 205
  let w3a := if bio then c.w3 + capillar else c.w3
  -- line 207
  let w2a := if bio then c.w2 + (if c.ws3 < w3a then w3a - c.ws3 else 0) else c.w2
  -- line 208
  let w3b := if bio then min c.ws3 w3a else w3a
  -- line 210
  let w1a := if bio then c.w1 + (if c.ws2 < w2a then w2a - c.ws2 else 0) else c.w1
  -- line 211
  let w2b := if bio then min c.ws2 w2a else w2a
  -- line 213
  let srGW := if bio then (if c.ws1 < w1a then w1a - c.ws1 else 0) else 0
  -- line 214
  let w1b := if bio then min c.ws1 w1a else w1a
  { w1b := w1b, w2b := w2b, w3b := w3b, saverunofffromGW := srGW }

/-- Stage of soil.py lines 224-306: the Van Diepen depletion fraction, the
water-stress reduction factors, the frost gating of the transpiration
demand and the per-layer extractions.  The source leaves the depletion
fraction NaN outside the irrigated and non-irrigated bioland classes and
never consumes it there; the embedding uses 0 for that dead branch. -/
structure StageC where
  etpotMax : ℚ
  p : ℚ
  ta1 : ℚ
  ta2 : ℚ
  ta3 : ℚ
  w1c : ℚ
  w2c : ℚ
  w3c : ℚ
  actTransTotal : ℚ

def stageC (c : Cell) (sB : StageB) (potTranspiration totalPotET : ℚ) : StageC :=
  let bio := c.land_use_type < 4
  -- line 224
  let etpotMax := min (0.1 * (totalPotET * 1000)) 1.0
  -- lines 230-251, irrigated_land is land_use_type in {2, 3},
  -- non_irrigated_bioland is land_use_type in {0, 1}
  let p0 :=
    if c.land_use_type = 2 ∨ c.land_use_type = 3 then
      (1 / (0.76 + 1.5 * etpotMax) - 0.4) + (etpotMax - 0.6) / 4
    else if c.land_use_type = 0 ∨ c.land_use_type = 1 then
      (let q := 1 / (0.76 + 1.5 * etpotMax) - 0.10 * (5 - c.cropGroupNumber)
       if c.cropGroupNumber ≤ 2.5 then
         q + (etpotMax - 0.6) / (c.cropGroupNumber * (c.cropGroupNumber + 3))
       else q)
    else 0
  -- line 256
  let p := max (min p0 1.0) 0
  -- lines 260-262
  let wCrit1 := (1 - p) * (c.wfc1 - c.wwp1) + c.wwp1
  let wCrit2 := (1 - p) * (c.wfc2 - c.wwp2) + c.wwp2
  let wCrit3 := (1 - p) * (c.wfc3 - c.wwp3) + c.wwp3
  -- lines 267-276
  let rws1 := max (min 1 (divideValues (sB.w1b - c.wwp1) (wCrit1 - c.wwp1) 1)) 0 * c.adjRoot0
  let rws2 := max (min 1 (divideValues (sB.w2b - c.wwp2) (wCrit2 - c.wwp2) 1)) 0 * c.adjRoot1
  let rws3 := max (min 1 (divideValues (sB.w3b - c.wwp3) (wCrit3 - c.wwp3) 1)) 0 * c.adjRoot2
  -- line 278
  let TaMax0 := potTranspiration * (rws1 + rws2 + rws3)
  -- line 286
  let TaMax := if c.FrostIndexThreshold < c.FrostIndex then 0 else TaMax0
  -- lines 288-290
  let ta1 := max (min (TaMax * c.adjRoot0) (sB.w1b - c.wwp1)) 0
  let ta2 := max (min (TaMax * c.adjRoot1) (sB.w2b - c.wwp2)) 0
  let ta3 := max (min (TaMax * c.adjRoot2) (sB.w3b - c.wwp3)) 0
  -- lines 294-296
  let w1c := if bio then sB.w1b - ta1 else sB.w1b
  let w2c := if bio then sB.w2b - ta2 else sB.w2b
  let w3c := if bio then sB.w3b - ta3 else sB.w3b
  -- line 302
  let att := if bio then ta1 + ta2 + ta3 else c.actTransTotal
  { etpotMax := etpotMax, p := p, ta1 := ta1, ta2 := ta2, ta3 := ta3,
    w1c := w1c, w2c := w2c, w3c := w3c, actTransTotal := att }

/-- Stage of soil.py lines 309-316: actual bare-soil evaporation, its frost
gating and its suppression under ponded paddies, subtracted from layer 1. -/
structure StageD where
  actBareSoilEvap : ℚ
  w1d : ℚ

def stageD (c : Cell) (sA : StageA) (sC : StageC) : StageD :=
  let bio := c.land_use_type < 4
  -- line 309
  let bse0 := if bio then min sA.potBareSoilEvap (max 0 (sC.w1c - c.wres1))
      else c.actBareSoilEvap
  -- line 311
  let bse1 := if bio then (if c.FrostIndexThreshold < c.FrostIndex then 0 else bse0)
      else bse0
  -- line 314, uses the current topwater
  let bse2 := if c.land_use_type = 2 then (if 0 < sA.topwater2 then 0 else bse1) else bse1
  -- line 316
  let w1d := if bio then sC.w1c - bse2 else sC.w1c
  { actBareSoilEvap := bse2, w1d := w1d }

/-- Stage of soil.py lines 321-387: the Arno saturation-excess split into
preferential flow, infiltration and direct runoff, the paddy topwater
release, and the routing of infiltration into layer 1 with its overflow
cascade into layer 2 (which the source leaves possibly over-saturated). -/
structure StageE where
  relSat : ℚ
  satAreaFrac : ℚ
  potInf : ℚ
  prefFlow : ℚ
  infiltration : ℚ
  directRunoff0 : ℚ
  directRunoff1 : ℚ
  directRunoff : ℚ
  topwater3 : ℚ
  topwater4 : ℚ
  w1e : ℚ
  w2e : ℚ

def stageE (pw : ℚ → ℚ → ℚ) (c : Cell) (sA : StageA) (sB : StageB) (sC : StageC)
    (sD : StageD) : StageE :=
  let bio := c.land_use_type < 4
  -- lines 321-324
  let soilWaterStorage := sD.w1d + sC.w2c
  let soilWaterStorageCap := c.ws1 + c.ws2
  let relSat := min (soilWaterStorage / soilWaterStorageCap) 1.0
  -- lines 328-332
  let satAreaFrac := max (min (1 - pw (1 - relSat) c.arnoBeta) 1.0) 0.0
  -- lines 334-336
  let store := soilWaterStorageCap / (c.arnoBeta + 1)
  let potBeta := (c.arnoBeta + 1) / c.arnoBeta
  let potInf := store - store * (1 - pw (1 - satAreaFrac) potBeta)
  -- lines 345-352
  let pref0 := if bio then sA.availWaterInfiltration * pw relSat c.cPrefFlow else 0
  let pref1 := if bio then
      (if c.FrostIndexThreshold < c.FrostIndex then 0 else pref0) else pref0
  let pref2 := if c.land_use_type = 2 then 0 else pref1
  let pref3 := if bio then pref2 * (1 - c.capriseindex) else pref2
  -- lines 357-360
  let inf0 := if bio then min potInf (sA.availWaterInfiltration - pref3) else 0
  let inf1 := if bio then
      (if c.FrostIndexThreshold < c.FrostIndex then 0 else inf0) else inf0
  -- lines 362-363
  let dr0 := if bio then max 0 (sA.availWaterInfiltration - inf1 - pref3) else 0
  -- line 367
  let tw3 := if c.land_use_type = 2 then max 0 (sA.topwater2 - inf1) else sA.topwater2
  -- lines 369-370
  let h := max 0 (tw3 - c.maxtopwater)
  let dr1 := if c.land_use_type = 2 then (if 0.75 < c.cropKC then h else dr0) else dr0
  -- line 372
  let tw4 := if c.land_use_type = 2 then max 0 (tw3 - dr1) else tw3
  -- line 374
  let dr2 := if bio then dr1 + sB.saverunofffromGW else dr1
  -- lines 380-382
  let w1e0 := if bio then sD.w1d + inf1 else sD.w1d
  let w2e := if bio then sC.w2c + (if c.ws1 < w1e0 then w1e0 - c.ws1 else 0) else sC.w2c
  let w1e := if bio then min c.ws1 w1e0 else w1e0
  { relSat := relSat, satAreaFrac := satAreaFrac, potInf := potInf, prefFlow := pref3,
    infiltration := inf1, directRunoff0 := dr0, directRunoff1 := dr1,
    directRunoff := dr2, topwater3 := tw3, topwater4 := tw4, w1e := w1e, w2e := w2e }

/-- Stage of soil.py lines 390-436: inter-layer capillary rise 2 to 1 and
3 to 2, driven by the Van Genuchten conductivities and capped by the
conductivities at field capacity (and, for the lower flux, by the
available water of layer 3). -/
structure StageF where
  satTerm2 : ℚ
  satTerm3 : ℚ
  kUnSat2 : ℚ
  kUnSat3 : ℚ
  satTermFC1 : ℚ
  satTermFC2 : ℚ
  capRise1 : ℚ
  capRise2 : ℚ
  w1f : ℚ
  w2f : ℚ
  w3f : ℚ

def stageF (pw : ℚ → ℚ → ℚ) (sqt : ℚ → ℚ) (c : Cell) (sC : StageC) (sE : StageE) :
    StageF :=
  let bio := c.land_use_type < 4
  -- lines 390-392
  let availWater2 := max 0 (sE.w2e - c.wres2)
  let availWater3 := max 0 (sC.w3c - c.wres3)
  -- lines 394-400: the quotient, then the two boolean-mask clamps
  let satTerm2a := availWater2 / (c.ws2 - c.wres2)
  let satTerm2b := if satTerm2a < 0 then 0 else satTerm2a
  let satTerm2 := if 1 < satTerm2b then 1 else satTerm2b
  let satTerm3a := availWater3 / (c.ws3 - c.wres3)
  let satTerm3b := if satTerm3a < 0 then 0 else satTerm3a
  let satTerm3 := if 1 < satTerm3b then 1 else satTerm3b
  -- lines 407-408
  let kUnSat2 := kUnSatVG pw sqt c.KSat2 c.lambda2 satTerm2
  let kUnSat3 := kUnSatVG pw sqt c.KSat3 c.lambda3 satTerm3
  -- lines 412-413
  let satTermFC1 := max 0 (sE.w1e - c.wres1) / (c.wfc1 - c.wres1)
  let satTermFC2 := max 0 (sE.w2e - c.wres2) / (c.wfc2 - c.wres2)
  -- lines 415-418
  let capRise1 := min (max 0 ((1 - satTermFC1) * kUnSat2)) c.kunSatFC12
  let capRise2a := min (max 0 ((1 - satTermFC2) * kUnSat3)) c.kunSatFC23
  let capRise2 := min capRise2a availWater3
  -- lines 427-429
  let w1f := if bio then sE.w1e + capRise1 else sE.w1e
  let w2f := if bio then sE.w2e - capRise1 + capRise2 else sE.w2e
  let w3f := if bio then sC.w3c - capRise2 else sC.w3c
  { satTerm2 := satTerm2, satTerm3 := satTerm3, kUnSat2 := kUnSat2, kUnSat3 := kUnSat3,
    satTermFC1 := satTermFC1, satTermFC2 := satTermFC2,
    capRise1 := capRise1, capRise2 := capRise2, w1f := w1f, w2f := w2f, w3f := w3f }

/-- The running state of the percolation sub-step loop of soil.py
lines 462-533. -/
structure PercState where
  availWater1 : ℚ
  availWater2 : ℚ
  availWater3 : ℚ
  wtemp1 : ℚ
  wtemp2 : ℚ
  wtemp3 : ℚ
  capLayer2 : ℚ
  capLayer3 : ℚ
  kUnSat1 : ℚ
  kUnSat2 : ℚ
  kUnSat3 : ℚ
  perc1to2 : ℚ
  perc2to3 : ℚ
  perc3toGW : ℚ

/-- soil.py lines 462-463: `NoSubSteps = 3`, `DtSub = 1 / NoSubSteps`. -/
def NoSubSteps : ℕ := 3

def DtSub : ℚ := 1 / (NoSubSteps : ℚ)

/-- One iteration of the percolation loop, soil.py lines 484-529; for the
iterations after the first (`recompute = true`) the saturation terms and
conductivities are recomputed from the current temporary storages
(lines 487-498). -/
def percSubstep (pw : ℚ → ℚ → ℚ) (sqt : ℚ → ℚ) (c : Cell) (recompute : Bool)
    (s : PercState) : PercState :=
  let satTerm1 := max (min (max 0 (s.wtemp1 - c.wres1) / (c.ws1 - c.wres1)) 1.0) 0
  let satTerm2 := max (min (max 0 (s.wtemp2 - c.wres2) / (c.ws2 - c.wres2)) 1.0) 0
  let satTerm3 := max (min (max 0 (s.wtemp3 - c.wres3) / (c.ws3 - c.wres3)) 1.0) 0
  let k1 := if recompute then kUnSatVG pw sqt c.KSat1 c.lambda1 satTerm1 else s.kUnSat1
  let k2 := if recompute then kUnSatVG pw sqt c.KSat2 c.lambda2 satTerm2 else s.kUnSat2
  let k3 := if recompute then kUnSatVG pw sqt c.KSat3 c.lambda3 satTerm3 else s.kUnSat3
  -- lines 501-503
  let subperc1to2 := min s.availWater1 (min (k1 * DtSub) s.capLayer2)
  let subperc2to3 := min s.availWater2 (min (k2 * DtSub) s.capLayer3)
  let subperc3toGW := min s.availWater3 (min (k3 * DtSub) s.availWater3) *
      (1 - c.capriseindex)
  -- lines 506-508
  let a1 := s.availWater1 - subperc1to2
  let a2 := s.availWater2 + subperc1to2 - subperc2to3
  let a3 := s.availWater3 + subperc2to3 - subperc3toGW
  -- lines 511-513
  let wt1 := a1 + c.wres1
  let wt2 := a2 + c.wres2
  let wt3 := a3 + c.wres3
  -- lines 516-517
  let cl2 := c.ws2 - wt2
  let cl3 := c.ws3 - wt3
  -- lines 519-521
  { availWater1 := a1, availWater2 := a2, availWater3 := a3,
    wtemp1 := wt1, wtemp2 := wt2, wtemp3 := wt3,
    capLayer2 := cl2, capLayer3 := cl3,
    kUnSat1 := k1, kUnSat2 := k2, kUnSat3 := k3,
    perc1to2 := s.perc1to2 + subperc1to2, perc2to3 := s.perc2to3 + subperc2to3,
    perc3toGW := s.perc3toGW + subperc3toGW }

/-- Stage of soil.py lines 440-568: the sub-stepped percolation (the source
iterates `NoSubSteps = 3` times, recomputing conductivities for the second
and third iteration), the frost zeroing of the accumulated layer-1-to-2 and
2-to-3 fluxes, and the commit to the persistent storages. -/
structure StageG where
  loopOut : PercState
  perc1to2 : ℚ
  perc2to3 : ℚ
  perc3toGW : ℚ
  w1g : ℚ
  w2g : ℚ
  w3g : ℚ

def stageG (pw : ℚ → ℚ → ℚ) (sqt : ℚ → ℚ) (c : Cell) (sF : StageF) : StageG :=
  let bio := c.land_use_type < 4
  -- lines 440-442
  let availWater1 := max 0 (sF.w1f - c.wres1)
  let availWater2 := max 0 (sF.w2f - c.wres2)
  let availWater3 := max 0 (sF.w3f - c.wres3)
  -- lines 445-446
  let capLayer2 := c.ws2 - sF.w2f
  let capLayer3 := c.ws3 - sF.w3f
  -- lines 448-455
  let satTerm1 := max (min (availWater1 / (c.ws1 - c.wres1)) 1.0) 0
  let satTerm2 := max (min (availWater2 / (c.ws2 - c.wres2)) 1.0) 0
  let satTerm3 := max (min (availWater3 / (c.ws3 - c.wres3)) 1.0) 0
  -- lines 458-460
  let k1 := kUnSatVG pw sqt c.KSat1 c.lambda1 satTerm1
  let k2 := kUnSatVG pw sqt c.KSat2 c.lambda2 satTerm2
  let k3 := kUnSatVG pw sqt c.KSat3 c.lambda3 satTerm3
  -- lines 468-476
  let s0 : PercState :=
    { availWater1 := availWater1, availWater2 := availWater2, availWater3 := availWater3,
      wtemp1 := sF.w1f, wtemp2 := sF.w2f, wtemp3 := sF.w3f,
      capLayer2 := capLayer2, capLayer3 := capLayer3,
      kUnSat1 := k1, kUnSat2 := k2, kUnSat3 := k3,
      perc1to2 := 0, perc2to3 := 0, perc3toGW := 0 }
  -- lines 484-529: three iterations, i = 0 without and i = 1, 2 with the
  -- conductivity recomputation
  let sL := percSubstep pw sqt c true (percSubstep pw sqt c true
      (percSubstep pw sqt c false s0))
  -- lines 551-552
  let p12 := if c.FrostIndexThreshold < c.FrostIndex then 0 else sL.perc1to2
  let p23 := if c.FrostIndexThreshold < c.FrostIndex then 0 else sL.perc2to3
  -- perc3toGW is a full-size array, zero outside bioarea (line 476)
  let p3 := if bio then sL.perc3toGW else 0
  -- lines 556-560
  let w1g := if bio then sF.w1f - p12 else sF.w1f
  let w2g := if bio then sF.w2f + p12 - p23 else sF.w2f
  let w3g := if bio then sF.w3f + p23 - p3 else sF.w3f
  { loopOut := sL, perc1to2 := p12, perc2to3 := p23, perc3toGW := p3,
    w1g := w1g, w2g := w2g, w3g := w3g }

/-- The updated per-cell state and the per-cell outgoing fluxes of one
invocation of `soil.dynamic` (its return value, line 626, together with
the persistent accumulators it mutates). -/
structure StepResult where
  w1 : ℚ
  w2 : ℚ
  w3 : ℚ
  topwater : ℚ
  interflow : ℚ
  directRunoff : ℚ
  groundwater_recharge : ℚ
  perc3toGW : ℚ
  prefFlow : ℚ
  openWaterEvap : ℚ
  actTransTotal : ℚ
  actBareSoilEvap : ℚ
  actualET : ℚ

/-- soil.py lines 584-600 and the collection of the returned values. -/
def assemble (c : Cell) (sA : StageA) (sC : StageC) (sD : StageD) (sE : StageE)
    (sG : StageG) : StepResult :=
  let bio := c.land_use_type < 4
  -- line 584
  let actualET := if bio then
      c.actualET + sD.actBareSoilEvap + sA.openWaterEvap + sC.actTransTotal
      else c.actualET
  -- line 594
  let toGWorInterflow := sG.perc3toGW + sE.prefFlow
  -- lines 596-600
  let interflow := if bio then c.percolationImp * toGWorInterflow else 0
  let groundwater_recharge := if bio then (1 - c.percolationImp) * toGWorInterflow else 0
  { w1 := sG.w1g, w2 := sG.w2g, w3 := sG.w3g, topwater := sE.topwater4,
    interflow := interflow, directRunoff := sE.directRunoff,
    groundwater_recharge := groundwater_recharge, perc3toGW := sG.perc3toGW,
    prefFlow := sE.prefFlow, openWaterEvap := sA.openWaterEvap,
    actTransTotal := sC.actTransTotal, actBareSoilEvap := sD.actBareSoilEvap,
    actualET := actualET }

/-- The per-cell assertions of `soil.dynamic` (the `np.isnan` ones are
vacuous in exact arithmetic): line 184, line 195, lines 216-218, 298-300,
385-387, 403-404, 431-433 and 555-561.  The assertion pairs at lines
423-425 and 478-480 repeat the w-values already checked just before and
are subsumed. -/
def asserts (c : Cell) (sA : StageA) (sB : StageB) (sC : StageC) (sE : StageE)
    (sF : StageF) (sG : StageG) : Prop :=
  0 ≤ c.natural_available_water_infiltration + c.actual_irrigation_consumption +
      1 / 1000000 ∧
  0 ≤ sA.topwater2 ∧
  0 ≤ sB.w1b ∧ 0 ≤ sB.w2b ∧ 0 ≤ sB.w3b ∧
  0 ≤ sC.w1c ∧ 0 ≤ sC.w2c ∧ 0 ≤ sC.w3c ∧
  0 ≤ sE.w1e ∧ 0 ≤ sE.w2e ∧ 0 ≤ sC.w3c ∧
  (0 ≤ sF.satTerm2 ∧ sF.satTerm2 ≤ 1) ∧ (0 ≤ sF.satTerm3 ∧ sF.satTerm3 ≤ 1) ∧
  0 ≤ sF.w1f ∧ 0 ≤ sF.w2f ∧ 0 ≤ sF.w3f ∧
  0 ≤ sG.w1g ∧ 0 ≤ sG.w2g ∧ 0 ≤ sG.w3g

instance (c : Cell) (sA : StageA) (sB : StageB) (sC : StageC) (sE : StageE)
    (sF : StageF) (sG : StageG) : Decidable (asserts c sA sB sC sE sF sG) := by
  unfold asserts; infer_instance

/-- One invocation of `soil.dynamic` (soil.py lines 162-626) on one cell:
the five per-land-cover driving arrays are the function arguments of the
source, the rest is read from the cell.  `none` means one of the source
assertions fired and the run aborted. -/
def dynamic (pw : ℚ → ℚ → ℚ) (sqt : ℚ → ℚ) (c : Cell)
    (capillar openWaterEvapIn potTranspiration potBareSoilEvapIn totalPotET : ℚ) :
    Option StepResult :=
  let sA := stageA c openWaterEvapIn potBareSoilEvapIn
  let sB := stageB c capillar
  let sC := stageC c sB potTranspiration totalPotET
  let sD := stageD c sA sC
  let sE := stageE pw c sA sB sC sD
  let sF := stageF pw sqt c sC sE
  let sG := stageG pw sqt c sF
  if asserts c sA sB sC sE sF sG then some (assemble c sA sC sD sE sG) else none

/-- soil.py lines 143-160 for one cell: the three layer thicknesses of
`soil.initial` as a function of the two storage-depth map values and the
`soildepth_factor` calibration constant.  Layer 1 is the fixed 0.05 of
line 146; the later lines 156-157 rescale layers 2 and 3 in place. -/
def initialSoildepth (soildepth_factor stordepth1 stordepth2 : ℚ) : ℚ × ℚ × ℚ :=
  -- line 146
  let soildepth0 := (0.05 : ℚ)
  -- line 149
  let soildepth1 := max 0.05 (stordepth1 - soildepth0)
  -- line 152
  let soildepth2 := max 0.05 stordepth2
  -- lines 156-157
  let soildepth1 := soildepth1 * soildepth_factor
  let soildepth2 := soildepth2 * soildepth_factor
  (soildepth0, soildepth1, soildepth2)

/-- Modelled from the spec: `to_grid(HRU_data=..., fn='mean')` comes from
the data-handling collaborator, which is not under src/; the spec
(section 4.1) describes it as the spatial average of the layer-2 plus
layer-3 thickness aggregated to the coarser model grid.  Line 159 writes
that average onto `grid.soildepth_12`. -/
def initialGridSoildepth12 (soildepth_factor : ℚ) (cells : List (ℚ × ℚ)) : ℚ :=
  (cells.map (fun sd =>
      (initialSoildepth soildepth_factor sd.1 sd.2).2.1 +
      (initialSoildepth soildepth_factor sd.1 sd.2).2.2)).sum / (cells.length : ℚ)

/-- The Arno potential-infiltration expression exactly as the source
computes it, soil.py line 336:
`potInf = store - store * (1 - (1 - satAreaFrac) ** potBeta)`,
over the reals with an explicit power function. -/
def potInfArno (pw : ℝ → ℝ → ℝ) (store satAreaFrac potBeta : ℝ) : ℝ :=
  store - store * (1 - pw (1 - satAreaFrac) potBeta)

/-- Rational stand-in for the elementwise float power of numpy, used to run
the embedded step on concrete cells.  It agrees with the real power
function at every argument pair at which those concrete runs call it:
exponent 0, exponent 1, exponent 2, and bases 0 and 1 at any exponent. -/
def powQ (x y : ℚ) : ℚ :=
  if y = 0 then 1
  else if y = 1 then x
  else if x = 0 then 0
  else if x = 1 then 1
  else if y = 2 then x * x
  else 0

/-- Rational stand-in for `np.sqrt`, used on concrete cells that only take
square roots of 0 and 1, where it is exact. -/
def sqrtQ (x : ℚ) : ℚ :=
  if x = 0 then 0 else if x = 1 then 1 else 0

/-- A test cell with everything zeroed, land-use type 0 (bioarea). -/
def zeroCell : Cell :=
  { land_use_type := 0, natural_available_water_infiltration := 0,
    actual_irrigation_consumption := 0, cropKC := 0, EWRef := 0, FrostIndex := 0,
    FrostIndexThreshold := 0, topwater := 0, w1 := 0, w2 := 0, w3 := 0,
    ws1 := 0, ws2 := 0, ws3 := 0, wres1 := 0, wres2 := 0, wres3 := 0,
    wfc1 := 0, wfc2 := 0, wfc3 := 0, wwp1 := 0, wwp2 := 0, wwp3 := 0,
    KSat1 := 0, KSat2 := 0, KSat3 := 0, lambda1 := 0, lambda2 := 0, lambda3 := 0,
    kunSatFC12 := 0, kunSatFC23 := 0, arnoBeta := 0, cPrefFlow := 0,
    cropGroupNumber := 0, capriseindex := 0, percolationImp := 0, maxtopwater := 0,
    adjRoot0 := 0, adjRoot1 := 0, adjRoot2 := 0, actTransTotal := 0,
    actBareSoilEvap := 0, actualET := 0 }

/-- Clamping a storage to its capacity and sending the excess onward moves
the water without loss: the overflow-cascade identity used at soil.py
lines 207-214 and 380-382. -/
lemma min_add_excess (ws w : ℚ) : min ws w + (if ws < w then w - ws else 0) = w := by
  rcases le_or_lt w ws with h | h
  · rw [min_eq_right h, if_neg (not_lt.mpr h), add_zero]
  · rw [min_eq_left h.le, if_pos h]; ring

/-- The corrected available water for infiltration is never negative
(soil.py line 185). -/
lemma avail1_nonneg (c : Cell) (oweIn pbseIn : ℚ) :
    0 ≤ (stageA c oweIn pbseIn).availWaterInfiltration1 := by
  show (0 : ℚ) ≤ if c.natural_available_water_infiltration +
      c.actual_irrigation_consumption < 0 then 0
      else c.natural_available_water_infiltration + c.actual_irrigation_consumption
  split
  · exact le_refl 0
  · exact le_of_not_lt (by assumption)

/-- Claim C6: the Arno potential-infiltration expression of soil.py
line 336, `store - store * (1 - (1 - satAreaFrac) ** potBeta)`, equals
`store * (1 - satAreaFrac) ** potBeta` in exact real arithmetic, for every
store at least 0, saturated-area fraction in the unit interval and
positive exponent. -/
theorem potInf_simplifies (store satAreaFrac potBeta : ℝ)
    (hstore : 0 ≤ store) (h0 : 0 ≤ satAreaFrac) (h1 : satAreaFrac ≤ 1)
    (hb : 0 < potBeta) :
    potInfArno Real.rpow store satAreaFrac potBeta =
      store * Real.rpow (1 - satAreaFrac) potBeta := by
  unfold potInfArno; ring

theorem potInf_simplifies_witness :
    (0 : ℝ) ≤ 2 ∧ (0 : ℝ) ≤ 1 / 2 ∧ (1 / 2 : ℝ) ≤ 1 ∧ (0 : ℝ) < 3 ∧
    potInfArno Real.rpow 2 (1 / 2) 3 = 2 * Real.rpow (1 - 1 / 2) 3 :=
  ⟨by norm_num, by norm_num, by norm_num, by norm_num,
   potInf_simplifies 2 (1 / 2) 3 (by norm_num) (by norm_num) (by norm_num) (by norm_num)⟩

/-- Claim C7: the Column Initializer gives layer 1 the fixed thickness
0.05, layer 2 the thickness `max(0.05, stordepth1 - 0.05)` scaled by the
calibration factor, layer 3 the thickness `max(0.05, stordepth2)` scaled
by the same factor, and writes the spatial mean of the layer-2 plus
layer-3 thickness onto the coarser-grid state. -/
theorem initial_soildepths (factor sd1 sd2 : ℚ) (cells : List (ℚ × ℚ)) :
    (initialSoildepth factor sd1 sd2).1 = 0.05 ∧
    (initialSoildepth factor sd1 sd2).2.1 = max 0.05 (sd1 - 0.05) * factor ∧
    (initialSoildepth factor sd1 sd2).2.2 = max 0.05 sd2 * factor ∧
    initialGridSoildepth12 factor cells =
      (cells.map (fun sd =>
        (initialSoildepth factor sd.1 sd.2).2.1 +
        (initialSoildepth factor sd.1 sd.2).2.2)).sum / (cells.length : ℚ) := by
  refine ⟨rfl, rfl, rfl, rfl⟩

/-- A cell whose layer 3 and layer 2 are both exactly saturated; the
remaining fields are irrelevant to the Phase-2 cascade. -/
def c4Cell : Cell :=
  { zeroCell with
    w1 := 0, w2 := 1 / 20, w3 := 1 / 10,
    ws1 := 1 / 20, ws2 := 1 / 20, ws3 := 1 / 10 }

/-- Claim C4, counterexample: for a cell with layer 3 saturated
(`w3 = ws3`) and layer 2 also saturated, a capillary rise of 0.005 m does
not end up in layer 2 - layer 2 is clamped back to `ws2` and the water
cascades on to layer 1 - so the particular consequence stated by the
claim fails. -/
theorem caprise_cascade_counterexample :
    c4Cell.w3 = c4Cell.ws3 ∧ (0 : ℚ) < 1 / 200 ∧
    c4Cell.land_use_type < 4 ∧
    (stageB c4Cell (1 / 200)).w2b = c4Cell.w2 ∧
    ¬ (stageB c4Cell (1 / 200)).w2b = c4Cell.w2 + 1 / 200 ∧
    (stageB c4Cell (1 / 200)).w1b = c4Cell.w1 + 1 / 200 := by
  norm_num [stageB, c4Cell, zeroCell]

/-- The Phase-2 overflow cascade of soil.py lines 204-214 conserves
`w1 + w2 + w3 + saverunofffromGW`. -/
lemma stageB_mass (c : Cell) (capillar : ℚ) (hbio : c.land_use_type < 4) :
    (stageB c capillar).w1b + (stageB c capillar).w2b + (stageB c capillar).w3b +
      (stageB c capillar).saverunofffromGW = c.w1 + c.w2 + c.w3 + capillar := by
  simp only [stageB, hbio, if_true]
  have e3 := min_add_excess c.ws3 (c.w3 + capillar)
  have e2 := min_add_excess c.ws2
    (c.w2 + if c.ws3 < c.w3 + capillar then c.w3 + capillar - c.ws3 else 0)
  have e1 := min_add_excess c.ws1
    (c.w1 + if c.ws2 < c.w2 +
        (if c.ws3 < c.w3 + capillar then c.w3 + capillar - c.ws3 else 0) then
      c.w2 + (if c.ws3 < c.w3 + capillar then c.w3 + capillar - c.ws3 else 0) - c.ws2
      else 0)
  linarith

/-- Claim C4, amended: the Phase-2 capillary-rise injection cascades the
excess above each capacity upward, conserves
`w1 + w2 + w3 + saverunofffromGW`, leaves every layer at or below its
capacity, and - provided layer 2 has room for the whole flux
(`w2 + capillar <= ws2`) - a cell with `w3 = ws3` passes the entire
non-negative flux to layer 2 while layer 3 stays at `ws3`. -/
theorem caprise_cascade (c : Cell) (capillar : ℚ) (hbio : c.land_use_type < 4) :
    (stageB c capillar).w1b + (stageB c capillar).w2b + (stageB c capillar).w3b +
      (stageB c capillar).saverunofffromGW = c.w1 + c.w2 + c.w3 + capillar ∧
    (stageB c capillar).w1b ≤ c.ws1 ∧
    (stageB c capillar).w2b ≤ c.ws2 ∧
    (stageB c capillar).w3b ≤ c.ws3 ∧
    (c.w3 = c.ws3 → 0 ≤ capillar → c.w2 + capillar ≤ c.ws2 →
      (stageB c capillar).w2b = c.w2 + capillar ∧ (stageB c capillar).w3b = c.ws3) := by
  refine ⟨stageB_mass c capillar hbio, ?_⟩
  simp only [stageB, hbio, if_true]
  refine ⟨min_le_left _ _, min_le_left _ _, min_le_left _ _, ?_⟩
  · intro h3 hcap hle
    have hexc : (if c.ws3 < c.w3 + capillar then c.w3 + capillar - c.ws3 else 0)
        = capillar := by
      rw [h3]
      rcases lt_or_le c.ws3 (c.ws3 + capillar) with h | h
      · rw [if_pos h]; ring
      · rw [if_neg (not_lt.mpr h)]
        have : capillar ≤ 0 := by linarith
        linarith
    rw [hexc, h3]
    exact ⟨min_eq_right hle, min_eq_left (by linarith)⟩

/-- A cell with layer 3 saturated and layer 2 with ample free capacity. -/
def c4bCell : Cell :=
  { zeroCell with
    w1 := 0, w2 := 1 / 50, w3 := 1 / 10,
    ws1 := 1 / 20, ws2 := 1 / 20, ws3 := 1 / 10 }

theorem caprise_cascade_witness :
    c4bCell.land_use_type < 4 ∧ c4bCell.w3 = c4bCell.ws3 ∧ (0 : ℚ) ≤ 1 / 200 ∧
    c4bCell.w2 + 1 / 200 ≤ c4bCell.ws2 ∧
    ((stageB c4bCell (1 / 200)).w1b + (stageB c4bCell (1 / 200)).w2b +
      (stageB c4bCell (1 / 200)).w3b + (stageB c4bCell (1 / 200)).saverunofffromGW =
      c4bCell.w1 + c4bCell.w2 + c4bCell.w3 + 1 / 200) ∧
    (stageB c4bCell (1 / 200)).w2b = c4bCell.w2 + 1 / 200 ∧
    (stageB c4bCell (1 / 200)).w3b = c4bCell.ws3 :=
  have hb : c4bCell.land_use_type < 4 := by norm_num [c4bCell, zeroCell]
  have h3 : c4bCell.w3 = c4bCell.ws3 := by norm_num [c4bCell, zeroCell]
  have hcap : (0 : ℚ) ≤ 1 / 200 := by norm_num
  have hle : c4bCell.w2 + 1 / 200 ≤ c4bCell.ws2 := by norm_num [c4bCell, zeroCell]
  ⟨hb, h3, hcap, hle, (caprise_cascade c4bCell (1 / 200) hb).1,
   ((caprise_cascade c4bCell (1 / 200) hb).2.2.2.2 h3 hcap hle).1,
   ((caprise_cascade c4bCell (1 / 200) hb).2.2.2.2 h3 hcap hle).2⟩

/-- Claim C3: for an active cell whose frost index exceeds the threshold,
the step extracts zero transpiration from each of the three layers,
produces zero actual bare-soil evaporation, zero preferential flow, zero
infiltration, and zero percolation from layer 1 to layer 2 and from
layer 2 to layer 3. -/
theorem frost_gating (pw : ℚ → ℚ → ℚ) (sqt : ℚ → ℚ) (c : Cell)
    (capillar oweIn potT pbseIn totET : ℚ)
    (hbio : c.land_use_type < 4)
    (hfrost : c.FrostIndexThreshold < c.FrostIndex) :
    (stageC c (stageB c capillar) potT totET).ta1 = 0 ∧
    (stageC c (stageB c capillar) potT totET).ta2 = 0 ∧
    (stageC c (stageB c capillar) potT totET).ta3 = 0 ∧
    (stageD c (stageA c oweIn pbseIn)
        (stageC c (stageB c capillar) potT totET)).actBareSoilEvap = 0 ∧
    (stageE pw c (stageA c oweIn pbseIn) (stageB c capillar)
        (stageC c (stageB c capillar) potT totET)
        (stageD c (stageA c oweIn pbseIn)
          (stageC c (stageB c capillar) potT totET))).prefFlow = 0 ∧
    (stageE pw c (stageA c oweIn pbseIn) (stageB c capillar)
        (stageC c (stageB c capillar) potT totET)
        (stageD c (stageA c oweIn pbseIn)
          (stageC c (stageB c capillar) potT totET))).infiltration = 0 ∧
    (stageG pw sqt c (stageF pw sqt c (stageC c (stageB c capillar) potT totET)
        (stageE pw c (stageA c oweIn pbseIn) (stageB c capillar)
          (stageC c (stageB c capillar) potT totET)
          (stageD c (stageA c oweIn pbseIn)
            (stageC c (stageB c capillar) potT totET))))).perc1to2 = 0 ∧
    (stageG pw sqt c (stageF pw sqt c (stageC c (stageB c capillar) potT totET)
        (stageE pw c (stageA c oweIn pbseIn) (stageB c capillar)
          (stageC c (stageB c capillar) potT totET)
          (stageD c (stageA c oweIn pbseIn)
            (stageC c (stageB c capillar) potT totET))))).perc2to3 = 0 := by
  have hta : ∀ adj bound : ℚ, max (min ((0 : ℚ) * adj) bound) 0 = 0 := by
    intro adj bound
    rw [zero_mul]
    exact max_eq_right (min_le_left _ _)
  refine ⟨?_, ?_, ?_, ?_, ?_, ?_, ?_, ?_⟩
  · simp only [stageC, hfrost, if_true]; exact hta _ _
  · simp only [stageC, hfrost, if_true]; exact hta _ _
  · simp only [stageC, hfrost, if_true]; exact hta _ _
  · simp [stageD, hbio, hfrost]
  · simp [stageE, hbio, hfrost]
  · simp [stageE, hbio, hfrost]
  · simp [stageG, hfrost]
  · simp [stageG, hfrost]

/-- A frozen cell: frost index above the threshold, land-use type 0. -/
def frostCell : Cell :=
  { zeroCell with FrostIndex := 2, FrostIndexThreshold := 1 }

theorem frost_gating_witness :
    frostCell.land_use_type < 4 ∧
    frostCell.FrostIndexThreshold < frostCell.FrostIndex ∧
    ((stageC frostCell (stageB frostCell 0) 0 0).ta1 = 0 ∧
     (stageC frostCell (stageB frostCell 0) 0 0).ta2 = 0 ∧
     (stageC frostCell (stageB frostCell 0) 0 0).ta3 = 0 ∧
     (stageD frostCell (stageA frostCell 0 0)
         (stageC frostCell (stageB frostCell 0) 0 0)).actBareSoilEvap = 0 ∧
     (stageE powQ frostCell (stageA frostCell 0 0) (stageB frostCell 0)
         (stageC frostCell (stageB frostCell 0) 0 0)
         (stageD frostCell (stageA frostCell 0 0)
           (stageC frostCell (stageB frostCell 0) 0 0))).prefFlow = 0 ∧
     (stageE powQ frostCell (stageA frostCell 0 0) (stageB frostCell 0)
         (stageC frostCell (stageB frostCell 0) 0 0)
         (stageD frostCell (stageA frostCell 0 0)
           (stageC frostCell (stageB frostCell 0) 0 0))).infiltration = 0 ∧
     (stageG powQ sqrtQ frostCell (stageF powQ sqrtQ frostCell
         (stageC frostCell (stageB frostCell 0) 0 0)
         (stageE powQ frostCell (stageA frostCell 0 0) (stageB frostCell 0)
           (stageC frostCell (stageB frostCell 0) 0 0)
           (stageD frostCell (stageA frostCell 0 0)
             (stageC frostCell (stageB frostCell 0) 0 0))))).perc1to2 = 0 ∧
     (stageG powQ sqrtQ frostCell (stageF powQ sqrtQ frostCell
         (stageC frostCell (stageB frostCell 0) 0 0)
         (stageE powQ frostCell (stageA frostCell 0 0) (stageB frostCell 0)
           (stageC frostCell (stageB frostCell 0) 0 0)
           (stageD frostCell (stageA frostCell 0 0)
             (stageC frostCell (stageB frostCell 0) 0 0))))).perc2to3 = 0) :=
  ⟨by norm_num [frostCell, zeroCell], by norm_num [frostCell, zeroCell],
   frost_gating powQ sqrtQ frostCell 0 0 0 0 0
     (by norm_num [frostCell, zeroCell]) (by norm_num [frostCell, zeroCell])⟩

/-- Phase-1 facts for a non-paddy cell: the available water and topwater
pass through untouched and the open-water evaporation is the incoming
value. -/
lemma stageA_nonpaddy (c : Cell) (oweIn pbseIn : ℚ) (hp : c.land_use_type ≠ 2) :
    (stageA c oweIn pbseIn).availWaterInfiltration =
      (stageA c oweIn pbseIn).availWaterInfiltration1 ∧
    (stageA c oweIn pbseIn).topwater2 = c.topwater ∧
    (stageA c oweIn pbseIn).openWaterEvap = oweIn := by
  simp [stageA, hp]

/-- Phase-1 facts for a flooded paddy cell (crop coefficient above 0.75):
the available water joins the ponding, evaporation comes out of it, and
the water later offered to infiltration is the remaining ponding. -/
lemma stageA_flooded (c : Cell) (oweIn pbseIn : ℚ)
    (hp : c.land_use_type = 2) (hkc : 0.75 < c.cropKC) :
    (stageA c oweIn pbseIn).topwater1 =
      c.topwater + (stageA c oweIn pbseIn).availWaterInfiltration1 ∧
    (stageA c oweIn pbseIn).openWaterEvap =
      min (max 0 (stageA c oweIn pbseIn).topwater1) c.EWRef ∧
    (stageA c oweIn pbseIn).topwater2 =
      (stageA c oweIn pbseIn).topwater1 - (stageA c oweIn pbseIn).openWaterEvap ∧
    (stageA c oweIn pbseIn).availWaterInfiltration =
      (stageA c oweIn pbseIn).topwater2 := by
  refine ⟨?_, ?_, ?_, ?_⟩ <;> simp [stageA, hp, hkc]

/-- Phase-1 facts for a non-flooded paddy cell (crop coefficient at most
0.75): ponding is not topped up, evaporation still comes out of it, and
the water later offered to infiltration is ponding plus incoming water. -/
lemma stageA_nonflooded (c : Cell) (oweIn pbseIn : ℚ)
    (hp : c.land_use_type = 2) (hkc : c.cropKC ≤ 0.75) :
    (stageA c oweIn pbseIn).topwater1 = c.topwater ∧
    (stageA c oweIn pbseIn).openWaterEvap =
      min (max 0 c.topwater) c.EWRef ∧
    (stageA c oweIn pbseIn).topwater2 =
      c.topwater - (stageA c oweIn pbseIn).openWaterEvap ∧
    (stageA c oweIn pbseIn).availWaterInfiltration =
      (stageA c oweIn pbseIn).topwater2 +
      (stageA c oweIn pbseIn).availWaterInfiltration1 := by
  have hkc2 : ¬ (0.75 : ℚ) < c.cropKC := not_lt.mpr hkc
  refine ⟨?_, ?_, ?_, ?_⟩ <;> simp [stageA, hp, hkc2]

/-- For a flooded paddy with non-negative initial ponding, the ponding
after open-water evaporation is still non-negative. -/
lemma stageA_flooded_tw2_nonneg (c : Cell) (oweIn pbseIn : ℚ)
    (hp : c.land_use_type = 2) (hkc : 0.75 < c.cropKC) (htw : 0 ≤ c.topwater) :
    0 ≤ (stageA c oweIn pbseIn).topwater2 := by
  obtain ⟨h1, h2, h3, _⟩ := stageA_flooded c oweIn pbseIn hp hkc
  have ha1 := avail1_nonneg c oweIn pbseIn
  have htw1 : 0 ≤ (stageA c oweIn pbseIn).topwater1 := by rw [h1]; linarith
  have howe : (stageA c oweIn pbseIn).openWaterEvap ≤
      (stageA c oweIn pbseIn).topwater1 := by
    rw [h2, max_eq_right htw1]; exact min_le_left _ _
  rw [h3]; linarith

/-- The exactness of the direct-runoff residual of soil.py line 363: the
infiltration of line 358 is the minimum with the remaining water, so the
outer `max 0` never clips. -/
lemma max0_sub_min (A p x : ℚ) :
    max 0 (A - min x (A - p) - p) = A - min x (A - p) - p :=
  max_eq_right (by linarith [min_le_right x (A - p)])

/-- Phase-5 facts for a non-paddy cell: the direct runoff is exactly the
offered water minus infiltration minus preferential flow, and the
topwater is untouched. -/
lemma stageE_nonpaddy (pw : ℚ → ℚ → ℚ) (c : Cell) (sA : StageA) (sB : StageB)
    (sC : StageC) (sD : StageD)
    (hbio : c.land_use_type < 4) (hp : c.land_use_type ≠ 2)
    (h0 : 0 ≤ sA.availWaterInfiltration) :
    (stageE pw c sA sB sC sD).directRunoff1 =
      sA.availWaterInfiltration - (stageE pw c sA sB sC sD).infiltration -
      (stageE pw c sA sB sC sD).prefFlow ∧
    (stageE pw c sA sB sC sD).topwater4 = sA.topwater2 := by
  have hb : (c.land_use_type < 4) = True := eq_true hbio
  have hpf : (c.land_use_type = 2) = False := eq_false hp
  by_cases hf : c.FrostIndexThreshold < c.FrostIndex
  · have hft : (c.FrostIndexThreshold < c.FrostIndex) = True := eq_true hf
    simp only [stageE, hb, hpf, hft, if_true, if_false, zero_mul, sub_zero]
    exact ⟨max_eq_right h0, trivial⟩
  · have hff : (c.FrostIndexThreshold < c.FrostIndex) = False := eq_false hf
    simp only [stageE, hb, hpf, hff, if_true, if_false]
    exact ⟨max0_sub_min _ _ _, trivial⟩

/-- The residual after subtracting a capped amount is non-negative
(exactness of soil.py line 363 when the offered water itself caps the
infiltration). -/
lemma max0_sub_min2 (t x : ℚ) : max 0 (t - min x t) = t - min x t :=
  max_eq_right (by linarith [min_le_right x t])

/-- Releasing the ponding excess above a non-negative maximum leaves
exactly the clipped ponding: the floor of soil.py line 372 never bites for
a flooded paddy. -/
lemma max0_sub_max0 (t m : ℚ) (ht : 0 ≤ t) (hm : 0 ≤ m) :
    max 0 (t - max 0 (t - m)) = t - max 0 (t - m) := by
  rcases le_or_lt t m with h | h
  · have hin : max 0 (t - m) = 0 := max_eq_left (by linarith)
    rw [hin, sub_zero, max_eq_right ht]
  · have hin : max 0 (t - m) = t - m := max_eq_right (by linarith)
    rw [hin]
    have h2 : t - (t - m) = m := by ring
    rw [h2, max_eq_right hm]

/-- For a non-flooded paddy the ponding is emptied: after subtracting the
infiltration and then the direct runoff, each floored at zero, nothing of
the ponding remains (the offered water was ponding plus incoming water). -/
lemma tw4_zero (tw2 A x : ℚ) (h2 : 0 ≤ tw2) (hD : tw2 ≤ A) :
    max 0 (max 0 (tw2 - min x A) - (A - min x A)) = 0 := by
  rcases le_or_lt (min x A) tw2 with h | h
  · have hin : max 0 (tw2 - min x A) = tw2 - min x A := max_eq_right (by linarith)
    rw [hin]
    exact max_eq_left (by linarith)
  · have hin : max 0 (tw2 - min x A) = 0 := max_eq_left (by linarith)
    rw [hin]
    exact max_eq_left (by linarith [min_le_right x A])

/-- The ponding-release identity specialised to a ponding that has already
lost its infiltration `min x t`. -/
lemma pond_release (t x m : ℚ) (hm : 0 ≤ m) :
    max 0 ((t - min x t) - max 0 ((t - min x t) - m)) =
      (t - min x t) - max 0 ((t - min x t) - m) :=
  max0_sub_max0 _ _ (by linarith [min_le_right x t]) hm

/-- Phase-5 facts for a flooded paddy cell: no preferential flow, the
infiltration is capped by the ponding, the ponding loses exactly the
infiltration, the runoff is the ponding excess above the maximum, and the
final ponding is the previous one minus that runoff. -/
lemma stageE_flooded (pw : ℚ → ℚ → ℚ) (c : Cell) (sA : StageA) (sB : StageB)
    (sC : StageC) (sD : StageD)
    (hp : c.land_use_type = 2) (hkc : 0.75 < c.cropKC)
    (havail : sA.availWaterInfiltration = sA.topwater2) (h2 : 0 ≤ sA.topwater2)
    (hmtw : 0 ≤ c.maxtopwater) :
    (stageE pw c sA sB sC sD).prefFlow = 0 ∧
    (stageE pw c sA sB sC sD).infiltration ≤ sA.topwater2 ∧
    (stageE pw c sA sB sC sD).topwater3 =
      sA.topwater2 - (stageE pw c sA sB sC sD).infiltration ∧
    (stageE pw c sA sB sC sD).directRunoff1 =
      max 0 ((stageE pw c sA sB sC sD).topwater3 - c.maxtopwater) ∧
    (stageE pw c sA sB sC sD).topwater4 =
      (stageE pw c sA sB sC sD).topwater3 - (stageE pw c sA sB sC sD).directRunoff1 := by
  have hbio : c.land_use_type < 4 := by omega
  have hb : (c.land_use_type < 4) = True := eq_true hbio
  have hpt : (c.land_use_type = 2) = True := eq_true hp
  have hkt : ((0.75 : ℚ) < c.cropKC) = True := eq_true hkc
  by_cases hf : c.FrostIndexThreshold < c.FrostIndex
  · have hft : (c.FrostIndexThreshold < c.FrostIndex) = True := eq_true hf
    refine ⟨?_, ?_, ?_, ?_, ?_⟩ <;>
      simp only [stageE, hb, hpt, hkt, hft, if_true, zero_mul, sub_zero, havail]
    · exact h2
    · exact max_eq_right h2
    · rw [max_eq_right h2]
      exact max0_sub_max0 sA.topwater2 c.maxtopwater h2 hmtw
  · have hff : (c.FrostIndexThreshold < c.FrostIndex) = False := eq_false hf
    refine ⟨?_, ?_, ?_, ?_, ?_⟩ <;>
      simp only [stageE, hb, hpt, hkt, hff, if_true, if_false, zero_mul, sub_zero,
        havail]
    · exact min_le_right _ _
    · exact max0_sub_min2 _ _
    · rw [max0_sub_min2]
      exact pond_release _ _ _ hmtw

/-- Phase-5 facts for a non-flooded paddy cell: no preferential flow, the
direct runoff is exactly the offered water minus the infiltration, and
the ponding is completely emptied. -/
lemma stageE_nonflooded (pw : ℚ → ℚ → ℚ) (c : Cell) (sA : StageA) (sB : StageB)
    (sC : StageC) (sD : StageD)
    (hp : c.land_use_type = 2) (hkc : c.cropKC ≤ 0.75)
    (h2 : 0 ≤ sA.topwater2) (hD : sA.topwater2 ≤ sA.availWaterInfiltration) :
    (stageE pw c sA sB sC sD).prefFlow = 0 ∧
    (stageE pw c sA sB sC sD).directRunoff1 =
      sA.availWaterInfiltration - (stageE pw c sA sB sC sD).infiltration ∧
    (stageE pw c sA sB sC sD).topwater4 = 0 := by
  have hbio : c.land_use_type < 4 := by omega
  have hb : (c.land_use_type < 4) = True := eq_true hbio
  have hpt : (c.land_use_type = 2) = True := eq_true hp
  have hkf : ((0.75 : ℚ) < c.cropKC) = False := eq_false (not_lt.mpr hkc)
  have h0 : (0 : ℚ) ≤ sA.availWaterInfiltration := le_trans h2 hD
  by_cases hf : c.FrostIndexThreshold < c.FrostIndex
  · have hft : (c.FrostIndexThreshold < c.FrostIndex) = True := eq_true hf
    refine ⟨?_, ?_, ?_⟩ <;>
      simp only [stageE, hb, hpt, hkf, hft, if_true, if_false, zero_mul, sub_zero]
    · rw [max_eq_right h0]
    · rw [max_eq_right h0, max_eq_right h2]
      exact max_eq_left (by linarith)
  · have hff : (c.FrostIndexThreshold < c.FrostIndex) = False := eq_false hf
    refine ⟨?_, ?_, ?_⟩ <;>
      simp only [stageE, hb, hpt, hkf, hff, if_true, if_false, zero_mul, sub_zero]
    · rw [max0_sub_min2]
    · rw [max0_sub_min2]
      exact tw4_zero _ _ _ h2 hD

/-- Claim C5: for a flooded paddy cell (crop coefficient above 0.75) the
incoming available water is added to the ponding instead of being routed
to infiltration, open-water evaporation `min(ponding, EWRef)` is
subtracted from the ponding, the water later offered to infiltration is
the remaining ponding, and the direct runoff is the excess of the ponding
above `maxtopwater` after the infiltration has been subtracted. -/
theorem paddy_flooded_step (pw : ℚ → ℚ → ℚ) (c : Cell) (oweIn pbseIn : ℚ)
    (sB : StageB) (sC : StageC) (sD : StageD)
    (hp : c.land_use_type = 2) (hkc : 0.75 < c.cropKC) (htw : 0 ≤ c.topwater)
    (hmtw : 0 ≤ c.maxtopwater) :
    (stageA c oweIn pbseIn).topwater1 =
      c.topwater + (stageA c oweIn pbseIn).availWaterInfiltration1 ∧
    (stageA c oweIn pbseIn).openWaterEvap =
      min (stageA c oweIn pbseIn).topwater1 c.EWRef ∧
    (stageA c oweIn pbseIn).topwater2 =
      (stageA c oweIn pbseIn).topwater1 - (stageA c oweIn pbseIn).openWaterEvap ∧
    (stageA c oweIn pbseIn).availWaterInfiltration =
      (stageA c oweIn pbseIn).topwater2 ∧
    (stageE pw c (stageA c oweIn pbseIn) sB sC sD).directRunoff1 =
      max 0 ((stageA c oweIn pbseIn).topwater2 -
        (stageE pw c (stageA c oweIn pbseIn) sB sC sD).infiltration -
        c.maxtopwater) := by
  obtain ⟨a1, a2, a3, a4⟩ := stageA_flooded c oweIn pbseIn hp hkc
  have h2 := stageA_flooded_tw2_nonneg c oweIn pbseIn hp hkc htw
  obtain ⟨_, _, e3, e4, _⟩ :=
    stageE_flooded pw c (stageA c oweIn pbseIn) sB sC sD hp hkc a4 h2 hmtw
  refine ⟨a1, ?_, a3, a4, ?_⟩
  · have ha1 := avail1_nonneg c oweIn pbseIn
    have htw1 : 0 ≤ (stageA c oweIn pbseIn).topwater1 := by rw [a1]; linarith
    rw [a2, max_eq_right htw1]
  · rw [e4, e3]

/-- The flooded-paddy scenario cell of the claim: crop coefficient 0.8,
ponding 0.04, incoming available water 0.02, maximum ponding 0.05, no
open-water evaporation demand. -/
def c5Cell : Cell :=
  { zeroCell with
    land_use_type := 2, cropKC := 4 / 5, topwater := 1 / 25,
    natural_available_water_infiltration := 1 / 50, maxtopwater := 1 / 20 }

theorem paddy_flooded_step_witness :
    c5Cell.land_use_type = 2 ∧ (0.75 : ℚ) < c5Cell.cropKC ∧
    (0 : ℚ) ≤ c5Cell.topwater ∧ (0 : ℚ) ≤ c5Cell.maxtopwater ∧
    ((stageA c5Cell 0 0).topwater1 =
      c5Cell.topwater + (stageA c5Cell 0 0).availWaterInfiltration1 ∧
    (stageA c5Cell 0 0).openWaterEvap =
      min (stageA c5Cell 0 0).topwater1 c5Cell.EWRef ∧
    (stageA c5Cell 0 0).topwater2 =
      (stageA c5Cell 0 0).topwater1 - (stageA c5Cell 0 0).openWaterEvap ∧
    (stageA c5Cell 0 0).availWaterInfiltration = (stageA c5Cell 0 0).topwater2 ∧
    (stageE powQ c5Cell (stageA c5Cell 0 0) (stageB c5Cell 0)
        (stageC c5Cell (stageB c5Cell 0) 0 0)
        (stageD c5Cell (stageA c5Cell 0 0)
          (stageC c5Cell (stageB c5Cell 0) 0 0))).directRunoff1 =
      max 0 ((stageA c5Cell 0 0).topwater2 -
        (stageE powQ c5Cell (stageA c5Cell 0 0) (stageB c5Cell 0)
          (stageC c5Cell (stageB c5Cell 0) 0 0)
          (stageD c5Cell (stageA c5Cell 0 0)
            (stageC c5Cell (stageB c5Cell 0) 0 0))).infiltration -
        c5Cell.maxtopwater)) ∧
    (stageA c5Cell 0 0).topwater2 = 3 / 50 :=
  ⟨by norm_num [c5Cell, zeroCell], by norm_num [c5Cell, zeroCell],
   by norm_num [c5Cell, zeroCell], by norm_num [c5Cell, zeroCell],
   paddy_flooded_step powQ c5Cell 0 0 (stageB c5Cell 0)
     (stageC c5Cell (stageB c5Cell 0) 0 0)
     (stageD c5Cell (stageA c5Cell 0 0) (stageC c5Cell (stageB c5Cell 0) 0 0))
     (by norm_num [c5Cell, zeroCell]) (by norm_num [c5Cell, zeroCell])
     (by norm_num [c5Cell, zeroCell]) (by norm_num [c5Cell, zeroCell]),
   by norm_num [stageA, c5Cell, zeroCell]⟩

/-- Claim C10: for a non-flooded paddy cell (crop coefficient at most
0.75) the water offered to the Phase-5 split is the current ponding plus
the incoming available water, the ponding is not reset at that point (it
only loses the open-water evaporation), and it is subsequently reduced
first by the infiltration and then by the direct runoff, each subtraction
floored at zero. -/
theorem paddy_nonflooded_step (pw : ℚ → ℚ → ℚ) (c : Cell) (oweIn pbseIn : ℚ)
    (sB : StageB) (sC : StageC) (sD : StageD)
    (hp : c.land_use_type = 2) (hkc : c.cropKC ≤ 0.75) :
    (stageA c oweIn pbseIn).availWaterInfiltration =
      (stageA c oweIn pbseIn).topwater2 +
      (stageA c oweIn pbseIn).availWaterInfiltration1 ∧
    (stageA c oweIn pbseIn).topwater1 = c.topwater ∧
    (stageA c oweIn pbseIn).topwater2 =
      c.topwater - (stageA c oweIn pbseIn).openWaterEvap ∧
    (stageE pw c (stageA c oweIn pbseIn) sB sC sD).topwater3 =
      max 0 ((stageA c oweIn pbseIn).topwater2 -
        (stageE pw c (stageA c oweIn pbseIn) sB sC sD).infiltration) ∧
    (stageE pw c (stageA c oweIn pbseIn) sB sC sD).topwater4 =
      max 0 ((stageE pw c (stageA c oweIn pbseIn) sB sC sD).topwater3 -
        (stageE pw c (stageA c oweIn pbseIn) sB sC sD).directRunoff1) := by
  obtain ⟨a1, _, a3, a4⟩ := stageA_nonflooded c oweIn pbseIn hp hkc
  have hpt : (c.land_use_type = 2) = True := eq_true hp
  refine ⟨a4, a1, a3, ?_, ?_⟩ <;> simp only [stageE, hpt, if_true]

/-- The non-flooded paddy cell used to witness the claim. -/
def c10Cell : Cell :=
  { zeroCell with
    land_use_type := 2, cropKC := 1 / 2, topwater := 1 / 25,
    natural_available_water_infiltration := 1 / 50 }

theorem paddy_nonflooded_step_witness :
    c10Cell.land_use_type = 2 ∧ c10Cell.cropKC ≤ 0.75 ∧
    ((stageA c10Cell 0 0).availWaterInfiltration =
      (stageA c10Cell 0 0).topwater2 +
      (stageA c10Cell 0 0).availWaterInfiltration1 ∧
    (stageA c10Cell 0 0).topwater1 = c10Cell.topwater ∧
    (stageA c10Cell 0 0).topwater2 =
      c10Cell.topwater - (stageA c10Cell 0 0).openWaterEvap ∧
    (stageE powQ c10Cell (stageA c10Cell 0 0) (stageB c10Cell 0)
        (stageC c10Cell (stageB c10Cell 0) 0 0)
        (stageD c10Cell (stageA c10Cell 0 0)
          (stageC c10Cell (stageB c10Cell 0) 0 0))).topwater3 =
      max 0 ((stageA c10Cell 0 0).topwater2 -
        (stageE powQ c10Cell (stageA c10Cell 0 0) (stageB c10Cell 0)
          (stageC c10Cell (stageB c10Cell 0) 0 0)
          (stageD c10Cell (stageA c10Cell 0 0)
            (stageC c10Cell (stageB c10Cell 0) 0 0))).infiltration) ∧
    (stageE powQ c10Cell (stageA c10Cell 0 0) (stageB c10Cell 0)
        (stageC c10Cell (stageB c10Cell 0) 0 0)
        (stageD c10Cell (stageA c10Cell 0 0)
          (stageC c10Cell (stageB c10Cell 0) 0 0))).topwater4 =
      max 0 ((stageE powQ c10Cell (stageA c10Cell 0 0) (stageB c10Cell 0)
          (stageC c10Cell (stageB c10Cell 0) 0 0)
          (stageD c10Cell (stageA c10Cell 0 0)
            (stageC c10Cell (stageB c10Cell 0) 0 0))).topwater3 -
        (stageE powQ c10Cell (stageA c10Cell 0 0) (stageB c10Cell 0)
          (stageC c10Cell (stageB c10Cell 0) 0 0)
          (stageD c10Cell (stageA c10Cell 0 0)
            (stageC c10Cell (stageB c10Cell 0) 0 0))).directRunoff1)) :=
  ⟨by norm_num [c10Cell, zeroCell], by norm_num [c10Cell, zeroCell],
   paddy_nonflooded_step powQ c10Cell 0 0 (stageB c10Cell 0)
     (stageC c10Cell (stageB c10Cell 0) 0 0)
     (stageD c10Cell (stageA c10Cell 0 0) (stageC c10Cell (stageB c10Cell 0) 0 0))
     (by norm_num [c10Cell, zeroCell]) (by norm_num [c10Cell, zeroCell])⟩

/-- The same cell with the incoming available-water components replaced by
an exact zero (everything else untouched). -/
def zeroedAvail (c : Cell) : Cell :=
  { c with
    natural_available_water_infiltration := 0,
    actual_irrigation_consumption := 0 }

/-- Claim C8: an incoming available water below -1e-6 aborts the step
before anything runs (the line-184 assertion); one that is negative but
not below -1e-6 is replaced by exactly 0 before any phase uses it, and
the correction touches nothing else - the whole step behaves as if the
incoming water had been an exact zero. -/
theorem availWater_contract (pw : ℚ → ℚ → ℚ) (sqt : ℚ → ℚ) (c : Cell)
    (capillar oweIn potT pbseIn totET : ℚ) :
    (c.natural_available_water_infiltration + c.actual_irrigation_consumption <
        -(1 / 1000000) →
      dynamic pw sqt c capillar oweIn potT pbseIn totET = none) ∧
    (-(1 / 1000000) ≤ c.natural_available_water_infiltration +
        c.actual_irrigation_consumption →
     c.natural_available_water_infiltration + c.actual_irrigation_consumption < 0 →
      (stageA c oweIn pbseIn).availWaterInfiltration1 = 0 ∧
      dynamic pw sqt c capillar oweIn potT pbseIn totET =
        dynamic pw sqt (zeroedAvail c) capillar oweIn potT pbseIn totET) := by
  constructor
  · intro hneg
    simp only [dynamic]
    apply if_neg
    intro hass
    unfold asserts at hass
    linarith [hass.1]
  · intro hge hlt
    have h2' : (c.natural_available_water_infiltration +
        c.actual_irrigation_consumption < 0) = True := eq_true hlt
    have hz : ((0 : ℚ) + 0 < 0) = False := by norm_num
    have hA : stageA c oweIn pbseIn = stageA (zeroedAvail c) oweIn pbseIn := by
      simp only [stageA, zeroedAvail, h2', hz, if_true, if_false]
      norm_num
    constructor
    · have h1 : (stageA c oweIn pbseIn).availWaterInfiltration1 =
          if c.natural_available_water_infiltration +
              c.actual_irrigation_consumption < 0 then 0
          else c.natural_available_water_infiltration +
            c.actual_irrigation_consumption := rfl
      rw [h1, if_pos hlt]
    · have hzB : ∀ x, stageB (zeroedAvail c) x = stageB c x := fun x => by
        simp only [stageB, zeroedAvail]
      have hzC : ∀ x y z, stageC (zeroedAvail c) x y z = stageC c x y z :=
        fun x y z => by simp only [stageC, zeroedAvail]
      have hzD : ∀ x y, stageD (zeroedAvail c) x y = stageD c x y := fun x y => by
        simp only [stageD, zeroedAvail]
      have hzE : ∀ x y z w, stageE pw (zeroedAvail c) x y z w = stageE pw c x y z w :=
        fun x y z w => by simp only [stageE, zeroedAvail]
      have hzF : ∀ x y, stageF pw sqt (zeroedAvail c) x y = stageF pw sqt c x y :=
        fun x y => by simp only [stageF, zeroedAvail]
      have hzP : ∀ r s, percSubstep pw sqt (zeroedAvail c) r s =
          percSubstep pw sqt c r s := fun r s => by
        simp only [percSubstep, zeroedAvail]
      have hzG : ∀ x, stageG pw sqt (zeroedAvail c) x = stageG pw sqt c x :=
        fun x => by
          simp only [stageG, hzP]
          simp only [zeroedAvail]
      have hzAsm : ∀ a b d e g, assemble (zeroedAvail c) a b d e g =
          assemble c a b d e g := fun a b d e g => by
        simp only [assemble, zeroedAvail]
      simp only [dynamic, hzB, hzC, hzD, hzE, hzF, hzG, hzAsm, hA]
      apply if_congr _ rfl rfl
      unfold asserts
      constructor
      · rintro ⟨-, hrest⟩
        refine ⟨?_, hrest⟩
        simp only [zeroedAvail]
        norm_num
      · rintro ⟨-, hrest⟩
        exact ⟨by linarith, hrest⟩

/-- A cell whose incoming available water is far below the -1e-6
tolerance. -/
def c8CellNeg : Cell :=
  { zeroCell with natural_available_water_infiltration := -1 }

/-- A cell whose incoming available water is negative floating-point
noise inside the tolerance. -/
def c8CellNoise : Cell :=
  { zeroCell with natural_available_water_infiltration := -(1 / 2000000) }

theorem availWater_contract_witness :
    dynamic powQ sqrtQ c8CellNeg 0 0 0 0 0 = none ∧
    (stageA c8CellNoise 0 0).availWaterInfiltration1 = 0 ∧
    dynamic powQ sqrtQ c8CellNoise 0 0 0 0 0 =
      dynamic powQ sqrtQ (zeroedAvail c8CellNoise) 0 0 0 0 0 :=
  ⟨(availWater_contract powQ sqrtQ c8CellNeg 0 0 0 0 0).1
     (by norm_num [c8CellNeg, zeroCell]),
   ((availWater_contract powQ sqrtQ c8CellNoise 0 0 0 0 0).2
     (by norm_num [c8CellNoise, zeroCell]) (by norm_num [c8CellNoise, zeroCell])).1,
   ((availWater_contract powQ sqrtQ c8CellNoise 0 0 0 0 0).2
     (by norm_num [c8CellNoise, zeroCell]) (by norm_num [c8CellNoise, zeroCell])).2⟩

/-- The clamped saturation terms of soil.py lines 394-404 always land in
the unit interval, which is exactly what the assertions there check. -/
lemma stageF_satTerms (pw : ℚ → ℚ → ℚ) (sqt : ℚ → ℚ) (c : Cell) (sC : StageC)
    (sE : StageE) :
    (0 ≤ (stageF pw sqt c sC sE).satTerm2 ∧ (stageF pw sqt c sC sE).satTerm2 ≤ 1) ∧
    (0 ≤ (stageF pw sqt c sC sE).satTerm3 ∧ (stageF pw sqt c sC sE).satTerm3 ≤ 1) := by
  simp only [stageF]
  refine ⟨⟨?_, ?_⟩, ⟨?_, ?_⟩⟩ <;> split_ifs <;> try norm_num
  all_goals linarith

/-- Claim C9: a cell whose land-use type does not participate in soil
physics (type at least 4) is left untouched by a step - its storages and
topwater are returned unchanged and its interflow, direct runoff,
groundwater recharge, percolation to groundwater and preferential flow
are exactly zero (with the assertion-visible inputs non-negative so the
step completes). -/
theorem nonbio_frame (pw : ℚ → ℚ → ℚ) (sqt : ℚ → ℚ) (c : Cell)
    (capillar oweIn potT pbseIn totET : ℚ)
    (h4 : 4 ≤ c.land_use_type)
    (hw1 : 0 ≤ c.w1) (hw2 : 0 ≤ c.w2) (hw3 : 0 ≤ c.w3) (htw : 0 ≤ c.topwater)
    (havail : -(1 / 1000000) ≤ c.natural_available_water_infiltration +
      c.actual_irrigation_consumption) :
    dynamic pw sqt c capillar oweIn potT pbseIn totET =
      some { w1 := c.w1, w2 := c.w2, w3 := c.w3, topwater := c.topwater,
             interflow := 0, directRunoff := 0, groundwater_recharge := 0,
             perc3toGW := 0, prefFlow := 0, openWaterEvap := oweIn,
             actTransTotal := c.actTransTotal, actBareSoilEvap := c.actBareSoilEvap,
             actualET := c.actualET } := by
  have hb : (c.land_use_type < 4) = False := eq_false (by omega)
  have hp : (c.land_use_type = 2) = False := eq_false (by omega)
  obtain ⟨hAa, hA2, hAo⟩ := stageA_nonpaddy c oweIn pbseIn (by omega)
  have eB1 : (stageB c capillar).w1b = c.w1 := by simp only [stageB, hb, if_false]
  have eB2 : (stageB c capillar).w2b = c.w2 := by simp only [stageB, hb, if_false]
  have eB3 : (stageB c capillar).w3b = c.w3 := by simp only [stageB, hb, if_false]
  have eBs : (stageB c capillar).saverunofffromGW = 0 := by
    simp only [stageB, hb, if_false]
  have eC1 : (stageC c (stageB c capillar) potT totET).w1c = c.w1 := by
    simp only [stageC, hb, if_false, eB1]
  have eC2 : (stageC c (stageB c capillar) potT totET).w2c = c.w2 := by
    simp only [stageC, hb, if_false, eB2]
  have eC3 : (stageC c (stageB c capillar) potT totET).w3c = c.w3 := by
    simp only [stageC, hb, if_false, eB3]
  have eCt : (stageC c (stageB c capillar) potT totET).actTransTotal =
      c.actTransTotal := by simp only [stageC, hb, if_false]
  have eD : (stageD c (stageA c oweIn pbseIn)
      (stageC c (stageB c capillar) potT totET)).actBareSoilEvap =
      c.actBareSoilEvap := by simp only [stageD, hb, hp, if_false]
  have eDw : (stageD c (stageA c oweIn pbseIn)
      (stageC c (stageB c capillar) potT totET)).w1d = c.w1 := by
    simp only [stageD, hb, if_false, eC1]
  set sA := stageA c oweIn pbseIn with hsA
  set sB := stageB c capillar with hsB
  set sC := stageC c sB potT totET with hsC
  set sD := stageD c sA sC with hsD
  set sE := stageE pw c sA sB sC sD with hsE
  set sF := stageF pw sqt c sC sE with hsF
  set sG := stageG pw sqt c sF with hsG
  have eEp : sE.prefFlow = 0 := by
    rw [hsE]; simp only [stageE, hb, hp, if_false]
  have eEi : sE.infiltration = 0 := by
    rw [hsE]; simp only [stageE, hb, if_false]
  have eEd : sE.directRunoff = 0 := by
    rw [hsE]; simp only [stageE, hb, hp, if_false]
  have eEt : sE.topwater4 = sA.topwater2 := by
    rw [hsE]; simp only [stageE, hp, if_false]
  have eEw1 : sE.w1e = c.w1 := by
    rw [hsE]; simp only [stageE, hb, if_false, eDw]
  have eEw2 : sE.w2e = c.w2 := by
    rw [hsE]; simp only [stageE, hb, if_false, eC2]
  have eF1 : sF.w1f = c.w1 := by
    rw [hsF]; simp only [stageF, hb, if_false, eEw1]
  have eF2 : sF.w2f = c.w2 := by
    rw [hsF]; simp only [stageF, hb, if_false, eEw2]
  have eF3 : sF.w3f = c.w3 := by
    rw [hsF]; simp only [stageF, hb, if_false, eC3]
  have eG1 : sG.w1g = c.w1 := by
    rw [hsG]; simp only [stageG, hb, if_false, eF1]
  have eG2 : sG.w2g = c.w2 := by
    rw [hsG]; simp only [stageG, hb, if_false, eF2]
  have eG3 : sG.w3g = c.w3 := by
    rw [hsG]; simp only [stageG, hb, if_false, eF3]
  have eGp : sG.perc3toGW = 0 := by
    rw [hsG]; simp only [stageG, hb, if_false]
  have hass : asserts c sA sB sC sE sF sG := by
    obtain ⟨hs2, hs3⟩ := stageF_satTerms pw sqt c sC sE
    unfold asserts
    rw [hA2, eB1, eB2, eB3, eC1, eC2, eC3, eEw1, eEw2, eG1, eG2, eG3, eF1, eF2, eF3]
    exact ⟨by linarith, htw, hw1, hw2, hw3, hw1, hw2, hw3, hw1, hw2, hw3,
      hs2, hs3, hw1, hw2, hw3, hw1, hw2, hw3⟩
  have hd : dynamic pw sqt c capillar oweIn potT pbseIn totET =
      if asserts c sA sB sC sE sF sG then some (assemble c sA sC sD sE sG)
      else none := rfl
  rw [hd, if_pos hass]
  simp only [assemble, hb, eG1, eG2, eG3, eGp, eEp, eEd, eEt, hA2, hAo, eCt, eD,
    if_false, Option.some.injEq]

/-- A sealed (non-soil) cell, land-use type 4, with nonzero state. -/
def c9Cell : Cell :=
  { zeroCell with
    land_use_type := 4, w1 := 1 / 10, w2 := 1 / 5, w3 := 3 / 10,
    topwater := 1 / 50, actTransTotal := 1 / 100, actualET := 1 / 25,
    actBareSoilEvap := 1 / 200 }

theorem nonbio_frame_witness :
    4 ≤ c9Cell.land_use_type ∧ (0 : ℚ) ≤ c9Cell.w1 ∧ (0 : ℚ) ≤ c9Cell.w2 ∧
    (0 : ℚ) ≤ c9Cell.w3 ∧ (0 : ℚ) ≤ c9Cell.topwater ∧
    -(1 / 1000000) ≤ c9Cell.natural_available_water_infiltration +
      c9Cell.actual_irrigation_consumption ∧
    dynamic powQ sqrtQ c9Cell (1 / 2) (1 / 3) (1 / 4) (1 / 5) (1 / 6) =
      some { w1 := c9Cell.w1, w2 := c9Cell.w2, w3 := c9Cell.w3,
             topwater := c9Cell.topwater, interflow := 0, directRunoff := 0,
             groundwater_recharge := 0, perc3toGW := 0, prefFlow := 0,
             openWaterEvap := 1 / 3, actTransTotal := c9Cell.actTransTotal,
             actBareSoilEvap := c9Cell.actBareSoilEvap,
             actualET := c9Cell.actualET } :=
  ⟨by norm_num [c9Cell, zeroCell], by norm_num [c9Cell, zeroCell],
   by norm_num [c9Cell, zeroCell], by norm_num [c9Cell, zeroCell],
   by norm_num [c9Cell, zeroCell], by norm_num [c9Cell, zeroCell],
   nonbio_frame powQ sqrtQ c9Cell (1 / 2) (1 / 3) (1 / 4) (1 / 5) (1 / 6)
     (by norm_num [c9Cell, zeroCell]) (by norm_num [c9Cell, zeroCell])
     (by norm_num [c9Cell, zeroCell]) (by norm_num [c9Cell, zeroCell])
     (by norm_num [c9Cell, zeroCell]) (by norm_num [c9Cell, zeroCell])⟩

/-- Claim C2, amended: whenever the Stepper completes (every assertion of
the source passes), the three layer storages and the topwater it returns
are non-negative.  The residual lower bound `wres_i <= w_i` and the
capacity upper bound `w_i <= ws_i` are not maintained in general. -/
theorem storages_nonneg_on_completion (pw : ℚ → ℚ → ℚ) (sqt : ℚ → ℚ) (c : Cell)
    (capillar oweIn potT pbseIn totET : ℚ) (out : StepResult)
    (hrun : dynamic pw sqt c capillar oweIn potT pbseIn totET = some out) :
    0 ≤ out.w1 ∧ 0 ≤ out.w2 ∧ 0 ≤ out.w3 ∧ 0 ≤ out.topwater := by
  simp only [dynamic] at hrun
  set sA := stageA c oweIn pbseIn with hsA
  set sB := stageB c capillar with hsB
  set sC := stageC c sB potT totET with hsC
  set sD := stageD c sA sC with hsD
  set sE := stageE pw c sA sB sC sD with hsE
  set sF := stageF pw sqt c sC sE with hsF
  set sG := stageG pw sqt c sF with hsG
  by_cases hass : asserts c sA sB sC sE sF sG
  · rw [if_pos hass] at hrun
    have hout : assemble c sA sC sD sE sG = out := Option.some.inj hrun
    unfold asserts at hass
    obtain ⟨-, h2, -, -, -, -, -, -, -, -, -, -, -, -, -, -, hg1, hg2, hg3⟩ := hass
    have e1 : out.w1 = sG.w1g := by rw [← hout]; rfl
    have e2 : out.w2 = sG.w2g := by rw [← hout]; rfl
    have e3 : out.w3 = sG.w3g := by rw [← hout]; rfl
    have e4 : out.topwater = sE.topwater4 := by rw [← hout]; rfl
    refine ⟨e1 ▸ hg1, e2 ▸ hg2, e3 ▸ hg3, ?_⟩
    rw [e4]
    by_cases hp : c.land_use_type = 2
    · have htw : sE.topwater4 = max 0 (sE.topwater3 - sE.directRunoff1) := by
        rw [hsE]; simp only [stageE, eq_true hp, if_true]
      rw [htw]; exact le_max_left _ _
    · have htw : sE.topwater4 = sA.topwater2 := by
        rw [hsE]; simp only [stageE, eq_false hp, if_false]
      rw [htw]; exact h2
  · rw [if_neg hass] at hrun
    exact absurd hrun (by simp)

/-- The counterexample cell for the bounds claim.  All parameters are
well-formed (`0 <= wres <= wwp <= wfc <= ws` per layer, root weights
summing to 1) and the pre-step state satisfies
`wres_i <= w_i <= ws_i` and `topwater >= 0`; the soil is not frozen.
Layer 2 is saturated, so its Van Genuchten conductivity equals `KSat2`
exactly, and the inter-layer capillary rise, capped only by
`kunSatFC12`, overdraws it. -/
def c2Cell : Cell :=
  { zeroCell with
    land_use_type := 0, FrostIndexThreshold := 1,
    w1 := 1 / 100, w2 := 1 / 10, w3 := 1 / 100,
    ws1 := 1 / 20, ws2 := 1 / 10, ws3 := 1 / 10,
    wres1 := 1 / 100, wres2 := 1 / 20, wres3 := 1 / 100,
    wfc1 := 1 / 25, wfc2 := 2 / 25, wfc3 := 1 / 25,
    wwp1 := 1 / 50, wwp2 := 3 / 50, wwp3 := 1 / 50,
    KSat1 := 0, KSat2 := 2 / 25, KSat3 := 0,
    lambda1 := 1, lambda2 := 1, lambda3 := 1,
    kunSatFC12 := 2 / 25, kunSatFC23 := 0,
    arnoBeta := 1, cPrefFlow := 1, cropGroupNumber := 5,
    adjRoot0 := 1 / 3, adjRoot1 := 1 / 3, adjRoot2 := 1 / 3 }

/-- The step result the counterexample cell produces. -/
def c2Out : StepResult :=
  { w1 := 9 / 100, w2 := 1 / 50, w3 := 1 / 100, topwater := 0, interflow := 0,
    directRunoff := 0, groundwater_recharge := 0, perc3toGW := 0, prefFlow := 0,
    openWaterEvap := 0, actTransTotal := 0, actBareSoilEvap := 0, actualET := 0 }

/-- Claim C2, counterexample: an active, frost-free cell whose pre-step
state satisfies `wres_i <= w_i <= ws_i` and `topwater >= 0` completes the
step (all assertions pass) with `w2` strictly below its residual storage
`wres2` and `w1` strictly above its capacity `ws1`: the Phase-6
inter-layer capillary rise moved `kunSatFC12 = 0.08` from layer 2 to
layer 1 without regard for either bound. -/
theorem bounds_invariant_counterexample :
    (c2Cell.wres1 ≤ c2Cell.w1 ∧ c2Cell.w1 ≤ c2Cell.ws1) ∧
    (c2Cell.wres2 ≤ c2Cell.w2 ∧ c2Cell.w2 ≤ c2Cell.ws2) ∧
    (c2Cell.wres3 ≤ c2Cell.w3 ∧ c2Cell.w3 ≤ c2Cell.ws3) ∧
    0 ≤ c2Cell.topwater ∧ c2Cell.land_use_type < 4 ∧
    c2Cell.FrostIndex ≤ c2Cell.FrostIndexThreshold ∧
    dynamic powQ sqrtQ c2Cell 0 0 0 0 0 = some c2Out ∧
    c2Out.w2 < c2Cell.wres2 ∧ c2Cell.ws1 < c2Out.w1 := by
  refine ⟨⟨?_, ?_⟩, ⟨?_, ?_⟩, ⟨?_, ?_⟩, ?_, ?_, ?_, ?_, ?_, ?_⟩ <;>
    norm_num [dynamic, stageA, stageB, stageC, stageD, stageE, stageF, stageG,
      percSubstep, kUnSatVG, divideValues, powQ, sqrtQ, asserts, assemble,
      c2Cell, zeroCell, c2Out, DtSub, NoSubSteps]

/-- The all-zero step result. -/
def zeroOut : StepResult :=
  { w1 := 0, w2 := 0, w3 := 0, topwater := 0, interflow := 0, directRunoff := 0,
    groundwater_recharge := 0, perc3toGW := 0, prefFlow := 0, openWaterEvap := 0,
    actTransTotal := 0, actBareSoilEvap := 0, actualET := 0 }

theorem storages_nonneg_on_completion_witness :
    dynamic powQ sqrtQ zeroCell 0 0 0 0 0 = some zeroOut ∧
    (0 ≤ zeroOut.w1 ∧ 0 ≤ zeroOut.w2 ∧ 0 ≤ zeroOut.w3 ∧ 0 ≤ zeroOut.topwater) :=
  have h : dynamic powQ sqrtQ zeroCell 0 0 0 0 0 = some zeroOut := by
    norm_num [dynamic, stageA, stageB, stageC, stageD, stageE, stageF, stageG,
      percSubstep, kUnSatVG, divideValues, powQ, sqrtQ, asserts, assemble,
      zeroCell, zeroOut, DtSub, NoSubSteps]
  ⟨h, storages_nonneg_on_completion powQ sqrtQ zeroCell 0 0 0 0 0 zeroOut h⟩

/-- Phase-3 conserves mass: the three extractions leave the column with
its water minus the actual transpiration total. -/
lemma stageC_mass (c : Cell) (sB : StageB) (potT totET : ℚ)
    (hbio : c.land_use_type < 4) :
    (stageC c sB potT totET).w1c + (stageC c sB potT totET).w2c +
      (stageC c sB potT totET).w3c =
      sB.w1b + sB.w2b + sB.w3b - (stageC c sB potT totET).actTransTotal := by
  simp only [stageC, eq_true hbio, if_true]
  ring

/-- Phase-4 conserves mass: layer 1 loses exactly the actual bare-soil
evaporation. -/
lemma stageD_mass (c : Cell) (sA : StageA) (sC : StageC)
    (hbio : c.land_use_type < 4) :
    (stageD c sA sC).w1d = sC.w1c - (stageD c sA sC).actBareSoilEvap := by
  simp only [stageD, eq_true hbio, if_true]

/-- Phase-5 conserves mass across the infiltration cascade: the top two
layers gain exactly the infiltration. -/
lemma stageE_mass (pw : ℚ → ℚ → ℚ) (c : Cell) (sA : StageA) (sB : StageB)
    (sC : StageC) (sD : StageD) (hbio : c.land_use_type < 4) :
    (stageE pw c sA sB sC sD).w1e + (stageE pw c sA sB sC sD).w2e =
      sD.w1d + sC.w2c + (stageE pw c sA sB sC sD).infiltration := by
  have h1 : (stageE pw c sA sB sC sD).w1e =
      min c.ws1 (sD.w1d + (stageE pw c sA sB sC sD).infiltration) := by
    simp only [stageE, eq_true hbio, if_true]
  have h2 : (stageE pw c sA sB sC sD).w2e =
      sC.w2c + (if c.ws1 < sD.w1d + (stageE pw c sA sB sC sD).infiltration then
        sD.w1d + (stageE pw c sA sB sC sD).infiltration - c.ws1 else 0) := by
    simp only [stageE, eq_true hbio, if_true]
  rw [h1, h2]
  linarith [min_add_excess c.ws1 (sD.w1d + (stageE pw c sA sB sC sD).infiltration)]

/-- Phase-6 conserves mass: the two inter-layer capillary fluxes move
water without loss. -/
lemma stageF_mass (pw : ℚ → ℚ → ℚ) (sqt : ℚ → ℚ) (c : Cell) (sC : StageC)
    (sE : StageE) (hbio : c.land_use_type < 4) :
    (stageF pw sqt c sC sE).w1f + (stageF pw sqt c sC sE).w2f +
      (stageF pw sqt c sC sE).w3f = sE.w1e + sE.w2e + sC.w3c := by
  simp only [stageF, eq_true hbio, if_true]
  ring

/-- Phase-7 conserves mass: whatever the sub-step loop and the frost
zeroing produce, the committed updates telescope, so the column loses
exactly the percolation to groundwater. -/
lemma stageG_mass (pw : ℚ → ℚ → ℚ) (sqt : ℚ → ℚ) (c : Cell) (sF : StageF)
    (hbio : c.land_use_type < 4) :
    (stageG pw sqt c sF).w1g + (stageG pw sqt c sF).w2g +
      (stageG pw sqt c sF).w3g =
      sF.w1f + sF.w2f + sF.w3f - (stageG pw sqt c sF).perc3toGW := by
  simp only [stageG, eq_true hbio, if_true]
  ring

/-- Claim C1: for every active (bioarea) cell, one Stepper invocation
balances: the influxes (natural available water for infiltration,
capillary rise from groundwater, actual irrigation consumption) minus the
outfluxes (direct runoff, percolation to groundwater, preferential flow,
actual transpiration, actual bare-soil evaporation, open-water
evaporation) equal the change of `w1 + w2 + w3 + topwater` to within
1e-6 (the slack is exactly the sub-tolerance negative-noise correction of
the incoming water); the upstream modules hand in a zero open-water
evaporation array and a non-negative maximum ponding depth. -/
theorem step_mass_balance (pw : ℚ → ℚ → ℚ) (sqt : ℚ → ℚ) (c : Cell)
    (capillar potT pbseIn totET : ℚ) (out : StepResult)
    (hbio : c.land_use_type < 4) (hmtw : 0 ≤ c.maxtopwater)
    (hrun : dynamic pw sqt c capillar 0 potT pbseIn totET = some out) :
    |(c.natural_available_water_infiltration + capillar +
        c.actual_irrigation_consumption) -
      (out.directRunoff + out.perc3toGW + out.prefFlow + out.actTransTotal +
        out.actBareSoilEvap + out.openWaterEvap) -
      ((out.w1 + out.w2 + out.w3 + out.topwater) -
        (c.w1 + c.w2 + c.w3 + c.topwater))| ≤ 1 / 1000000 := by
  simp only [dynamic] at hrun
  set sA := stageA c 0 pbseIn with hsA
  set sB := stageB c capillar with hsB
  set sC := stageC c sB potT totET with hsC
  set sD := stageD c sA sC with hsD
  set sE := stageE pw c sA sB sC sD with hsE
  set sF := stageF pw sqt c sC sE with hsF
  set sG := stageG pw sqt c sF with hsG
  by_cases hass : asserts c sA sB sC sE sF sG
  · rw [if_pos hass] at hrun
    have hout : assemble c sA sC sD sE sG = out := Option.some.inj hrun
    unfold asserts at hass
    obtain ⟨ha1, h2, -⟩ := hass
    have o_dr : out.directRunoff = sE.directRunoff := by rw [← hout]; rfl
    have o_p3 : out.perc3toGW = sG.perc3toGW := by rw [← hout]; rfl
    have o_pf : out.prefFlow = sE.prefFlow := by rw [← hout]; rfl
    have o_at : out.actTransTotal = sC.actTransTotal := by rw [← hout]; rfl
    have o_bse : out.actBareSoilEvap = sD.actBareSoilEvap := by rw [← hout]; rfl
    have o_owe : out.openWaterEvap = sA.openWaterEvap := by rw [← hout]; rfl
    have o_w1 : out.w1 = sG.w1g := by rw [← hout]; rfl
    have o_w2 : out.w2 = sG.w2g := by rw [← hout]; rfl
    have o_w3 : out.w3 = sG.w3g := by rw [← hout]; rfl
    have o_tw : out.topwater = sE.topwater4 := by rw [← hout]; rfl
    have mB := stageB_mass c capillar hbio
    rw [← hsB] at mB
    have mC := stageC_mass c sB potT totET hbio
    rw [← hsC] at mC
    have mD := stageD_mass c sA sC hbio
    rw [← hsD] at mD
    have mE := stageE_mass pw c sA sB sC sD hbio
    rw [← hsE] at mE
    have mF := stageF_mass pw sqt c sC sE hbio
    rw [← hsF] at mF
    have mG := stageG_mass pw sqt c sF hbio
    rw [← hsG] at mG
    have mDr : sE.directRunoff = sE.directRunoff1 + sB.saverunofffromGW := by
      rw [hsE]; simp only [stageE, eq_true hbio, if_true]
    have hA1v : sA.availWaterInfiltration1 =
        if c.natural_available_water_infiltration +
            c.actual_irrigation_consumption < 0 then 0
        else c.natural_available_water_infiltration +
          c.actual_irrigation_consumption := by
      rw [hsA]; rfl
    have ha1n := avail1_nonneg c 0 pbseIn
    rw [← hsA] at ha1n
    have flux : sE.directRunoff1 + sE.infiltration + sE.prefFlow +
        (sE.topwater4 - c.topwater) + sA.openWaterEvap =
        sA.availWaterInfiltration1 := by
      by_cases hp : c.land_use_type = 2
      · by_cases hkc : (0.75 : ℚ) < c.cropKC
        · obtain ⟨a1, a2, a3, a4⟩ := stageA_flooded c 0 pbseIn hp hkc
          rw [← hsA] at a1 a2 a3 a4
          obtain ⟨e1, e2, e3, e4, e5⟩ :=
            stageE_flooded pw c sA sB sC sD hp hkc a4 h2 hmtw
          rw [e1]
          linarith [e3, e5, a1, a3]
        · have hkc2 : c.cropKC ≤ 0.75 := le_of_not_lt hkc
          obtain ⟨a1, a2, a3, a4⟩ := stageA_nonflooded c 0 pbseIn hp hkc2
          rw [← hsA] at a1 a2 a3 a4
          have hD2 : sA.topwater2 ≤ sA.availWaterInfiltration := by
            rw [a4]; linarith
          obtain ⟨e1, e2, e3⟩ := stageE_nonflooded pw c sA sB sC sD hp hkc2 h2 hD2
          rw [e1, e2, e3]
          linarith [a3, a4]
      · obtain ⟨a1, a2, a3⟩ := stageA_nonpaddy c 0 pbseIn hp
        rw [← hsA] at a1 a2 a3
        have h0 : 0 ≤ sA.availWaterInfiltration := by rw [a1]; exact ha1n
        obtain ⟨e1, e2⟩ := stageE_nonpaddy pw c sA sB sC sD hbio hp h0
        rw [e1, e2]
        linarith [a1, a2, a3]
    have hfinal : (c.natural_available_water_infiltration + capillar +
        c.actual_irrigation_consumption) -
        (out.directRunoff + out.perc3toGW + out.prefFlow + out.actTransTotal +
          out.actBareSoilEvap + out.openWaterEvap) -
        ((out.w1 + out.w2 + out.w3 + out.topwater) -
          (c.w1 + c.w2 + c.w3 + c.topwater)) =
        (c.natural_available_water_infiltration +
          c.actual_irrigation_consumption) - sA.availWaterInfiltration1 := by
      rw [o_dr, o_p3, o_pf, o_at, o_bse, o_owe, o_w1, o_w2, o_w3, o_tw]
      linarith [flux, mB, mC, mD, mE, mF, mG, mDr]
    rw [hfinal, hA1v]
    by_cases hneg : c.natural_available_water_infiltration +
        c.actual_irrigation_consumption < 0
    · rw [if_pos hneg, sub_zero, abs_of_nonpos (le_of_lt hneg)]
      linarith
    · rw [if_neg hneg, sub_self, abs_zero]
      norm_num
  · rw [if_neg hass] at hrun
    exact absurd hrun (by simp)

/-- A frost-free grassland cell receiving 0.01 m of water, part of which
infiltrates and part of which leaves as preferential flow. -/
def c1Cell : Cell :=
  { zeroCell with
    land_use_type := 0, FrostIndexThreshold := 1,
    natural_available_water_infiltration := 1 / 100,
    w1 := 1 / 100, w2 := 1 / 100, w3 := 1 / 100,
    ws1 := 1 / 10, ws2 := 1 / 10, ws3 := 1 / 10,
    wfc1 := 1 / 20, wfc2 := 1 / 20, wfc3 := 1 / 20,
    wwp1 := 1 / 100, wwp2 := 1 / 100, wwp3 := 1 / 100,
    lambda1 := 1, lambda2 := 1, lambda3 := 1,
    arnoBeta := 1, cPrefFlow := 1, cropGroupNumber := 5,
    adjRoot0 := 1 / 3, adjRoot1 := 1 / 3, adjRoot2 := 1 / 3 }

/-- The step result of `c1Cell`: 0.009 m infiltrates into layer 1 and
0.001 m leaves as preferential flow becoming groundwater recharge. -/
def c1Out : StepResult :=
  { w1 := 19 / 1000, w2 := 1 / 100, w3 := 1 / 100, topwater := 0, interflow := 0,
    directRunoff := 0, groundwater_recharge := 1 / 1000, perc3toGW := 0,
    prefFlow := 1 / 1000, openWaterEvap := 0, actTransTotal := 0,
    actBareSoilEvap := 0, actualET := 0 }

theorem step_mass_balance_witness :
    c1Cell.land_use_type < 4 ∧ (0 : ℚ) ≤ c1Cell.maxtopwater ∧
    dynamic powQ sqrtQ c1Cell 0 0 0 0 0 = some c1Out ∧
    |(c1Cell.natural_available_water_infiltration + 0 +
        c1Cell.actual_irrigation_consumption) -
      (c1Out.directRunoff + c1Out.perc3toGW + c1Out.prefFlow +
        c1Out.actTransTotal + c1Out.actBareSoilEvap + c1Out.openWaterEvap) -
      ((c1Out.w1 + c1Out.w2 + c1Out.w3 + c1Out.topwater) -
        (c1Cell.w1 + c1Cell.w2 + c1Cell.w3 + c1Cell.topwater))| ≤ 1 / 1000000 :=
  have h : dynamic powQ sqrtQ c1Cell 0 0 0 0 0 = some c1Out := by
    norm_num [dynamic, stageA, stageB, stageC, stageD, stageE, stageF, stageG,
      percSubstep, kUnSatVG, divideValues, powQ, sqrtQ, asserts, assemble,
      c1Cell, zeroCell, c1Out, DtSub, NoSubSteps]
  ⟨by norm_num [c1Cell, zeroCell], by norm_num [c1Cell, zeroCell], h,
   step_mass_balance powQ sqrtQ c1Cell 0 0 0 0 c1Out
     (by norm_num [c1Cell, zeroCell]) (by norm_num [c1Cell, zeroCell]) h⟩

end ABCWatM
